import Mathlib

/-!
# Verification of the Clawd domain-marketplace payment core

Shallow embedding of `src/backend/src/payments.py` (`PaymentVerifier.verify_payment`),
`src/backend/src/relayer.py` (`Relayer.execute_transfer`, `Relayer.parse_signature`)
and `src/backend/src/main.py` (`x402_payment`, `confirm_purchase`), together with
proofs about the payment verification, the meta-transaction relayer and the purchase
state machine.

Conventions of the embedding:
* Python `Decimal` values and the exact values of Python `float`s are `ℚ`.
* Python `int` is `ℤ` (arbitrary precision in both).
* Python IEEE-754 double arithmetic is modelled exactly: `float64 q` is the rational
  value of the binary64 double nearest to `q` (round to nearest, ties to even), which
  is the value `float(q)` produces for the decimals appearing here, and
  `float64 (a * b)` is the correctly rounded product required by IEEE 754, which is
  what Python's `*` on floats computes.  Overflow and subnormals never occur for the
  dollar amounts and micro-unit products handled by this system, so they are not
  modelled.
* Strings stay `String`; Python `s.lower()` is `pyLower`; truthiness of a string is
  `s ≠ ""`.
* datetimes are integer timestamps; `datetime.utcnow()` is a parameter `now`.
* The chain, the registrar and the JSON/base64 library are oracles: their answers
  for the single request under consideration are inputs, and every call made to
  them is recorded in an explicit trace, so "no chain interaction" is the statement
  that the trace is empty.
-/

namespace Clawd

set_option maxRecDepth 100000

/-! ## Python string and number helpers -/

/-- Python `s.lower()` (the address strings handled here are ASCII). -/
def pyLower (s : String) : String := String.mk (s.data.map Char.toLower)

/-- Python `s.startswith(pre)`. -/
def pyStartsWith (s pre : String) : Bool := s.data.take pre.data.length == pre.data

/-- Python `s[-40:]` on a hex string: the last 40 characters. -/
def lastChars (n : Nat) (s : String) : String := s.drop (s.length - n)

/-- ⌊q⌋ for a rational, written with `Int.fdiv` so the kernel can evaluate it. -/
def ratFloor (q : ℚ) : ℤ := q.num.fdiv (q.den : ℤ)

/-- ⌈q⌉ for a rational. -/
def ratCeil (q : ℚ) : ℤ := -ratFloor (-q)

/-- Python `int(q)` for a real (rational) value: truncation toward zero. -/
def pyTrunc (q : ℚ) : ℤ := if 0 ≤ q then ratFloor q else ratCeil q

/-! ## Exact model of binary64 (Python `float`) for the values in range

`float64 q` is the value of the IEEE-754 double nearest to `q`
(ties to even); only normal, non-overflowing magnitudes occur here. -/

/-- Fuelled ⌊log₂ n⌋ for `n ≥ 1` (0 for `n ≤ 1`), structurally recursive so the
kernel can evaluate it. -/
def natLog2F : Nat → Nat → Nat
  | 0, _ => 0
  | fuel + 1, n => if n ≤ 1 then 0 else natLog2F fuel (n / 2) + 1

/-- ⌊log₂ n⌋ (with enough fuel for any numerator appearing in this development). -/
def natLog2 (n : Nat) : Nat := natLog2F 4096 n

/-- `2^e : ℚ` for an integer exponent. -/
def pow2 (e : ℤ) : ℚ := if 0 ≤ e then ((2 ^ e.toNat : ℕ) : ℚ) else 1 / ((2 ^ (-e).toNat : ℕ) : ℚ)

/-- ⌊log₂ q⌋ for a positive rational `q`. -/
def ratLog2 (q : ℚ) : ℤ :=
  let e0 : ℤ := (natLog2 q.num.toNat : ℤ) - (natLog2 q.den : ℤ)
  if q < pow2 e0 then e0 - 1 else if pow2 (e0 + 1) ≤ q then e0 + 1 else e0

/-- Round a rational to an integer, half to even (IEEE-754 tie rule). -/
def roundHalfEven (q : ℚ) : ℤ :=
  let n := ratFloor q
  let f := q - (n : ℚ)
  if f < 1 / 2 then n
  else if 1 / 2 < f then n + 1
  else if n % 2 = 0 then n else n + 1

/-- The binary64 double nearest to a positive rational. -/
def float64Pos (q : ℚ) : ℚ :=
  let e := ratLog2 q - 52
  (roundHalfEven (q / pow2 e) : ℚ) * pow2 e

/-- The binary64 double nearest to a rational (round to nearest, ties to even). -/
def float64 (q : ℚ) : ℚ :=
  if q = 0 then 0 else if 0 < q then float64Pos q else -float64Pos (-q)

/-! ## `payments.py`: `PaymentVerifier.verify_payment`

The receipt and its logs are modelled after what the code reads from them:
each log's emitting `address`, its `topics[0]`/`topics[1]`/`topics[2]` hex
strings, and its `data` already parsed as the transferred integer amount
(`int(log["data"].hex(), 16)`). -/

/-- `USDC_DECIMALS = 6`. -/
def USDC_DECIMALS : Nat := 6

/-- `Web3.keccak(text="Transfer(address,address,uint256)").hex()`: the canonical
ERC-20 Transfer event signature hash (a fixed constant; keccak itself is not
re-modelled). -/
def TRANSFER_TOPIC : String :=
  "0xddf252ad1be2c89b69c2b068fc378daa952ba7f163c4a11628f55a4df523b3ef"

structure TxLog where
  address : String
  topic0 : String
  topic1 : String
  topic2 : String
  dataAmount : ℕ
  deriving Repr, DecidableEq

structure Receipt where
  status : ℕ
  logs : List TxLog
  deriving Repr, DecidableEq

structure VerifyResult where
  verified : Bool
  amount : Option ℚ := none
  sender : Option String := none
  recipient : Option String := none
  error : Option String := none
  deriving Repr, DecidableEq

/-- `"0x" + topics[i].hex()[-40:]`: decode a padded address from an indexed topic. -/
def decodeTopicAddr (t : String) : String := "0x" ++ lastChars 40 t

/-- The `for log in receipt["logs"]` loop of `verify_payment` (lines 65-106 of
`payments.py`): skip logs from other contracts or with other signatures, skip
logs whose recipient does not match, return a shortfall failure at the first
matching log whose amount is below the expectation, accept the first matching
log otherwise. -/
def scanLogs (usdcAddress expectedRecipient : String) (expectedAmount : ℚ) :
    List TxLog → VerifyResult
  | [] => { verified := false, error := some "No matching USDC transfer found" }
  | log :: rest =>
    if pyLower log.address ≠ usdcAddress then
      scanLogs usdcAddress expectedRecipient expectedAmount rest
    else if log.topic0 ≠ TRANSFER_TOPIC then
      scanLogs usdcAddress expectedRecipient expectedAmount rest
    else
      let sender := decodeTopicAddr log.topic1
      let recipient := decodeTopicAddr log.topic2
      let amount : ℚ := (log.dataAmount : ℚ) / (10 ^ USDC_DECIMALS : ℚ)
      if pyLower recipient ≠ pyLower expectedRecipient then
        scanLogs usdcAddress expectedRecipient expectedAmount rest
      else if amount < expectedAmount then
        { verified := false, amount := some amount, sender := some sender,
          recipient := some recipient,
          error := some ("Amount " ++ toString amount ++ " less than expected " ++ toString expectedAmount) }
      else
        { verified := true, amount := some amount, sender := some sender,
          recipient := some recipient, error := none }

/-- `PaymentVerifier.verify_payment` on the non-mock path: the receipt fetched for
the transaction hash is an input (`none` models `TransactionNotFound` /
a `None` receipt). -/
def verify_payment (usdcContract : String) (receipt : Option Receipt)
    (expectedAmount : ℚ) (expectedRecipient : String) : VerifyResult :=
  match receipt with
  | none => { verified := false, error := some "Transaction not found" }
  | some r =>
    if r.status ≠ 1 then { verified := false, error := some "Transaction failed" }
    else scanLogs (pyLower usdcContract) expectedRecipient expectedAmount r.logs

/-- `PaymentVerifier._mock_verify`. -/
def mock_verify (txHash : String) (expectedAmount : ℚ) (expectedRecipient : String) :
    VerifyResult :=
  if pyStartsWith txHash "0x" ∧ txHash.length = 66 then
    { verified := true, amount := some expectedAmount,
      sender := some "0x1234567890123456789012345678901234567890",
      recipient := some expectedRecipient, error := none }
  else
    { verified := false, error := some "Invalid transaction hash format" }

/-! ## `relayer.py`: `Relayer.parse_signature` and `Relayer.execute_transfer`

The EIP-55 checksumming done by `Web3.to_checksum_address` only re-capitalizes
hex letters and every comparison in the code is done on `.lower()` values, so
addresses are modelled up to case and `to_checksum_address` is the identity on
the embedded address strings. -/

/-- `Web3.to_checksum_address` (identity up to letter case; see section header). -/
def to_checksum_address (s : String) : String := s

/-- A decoded EIP-3009 authorization, after the `int(...)` conversions at the top
of `execute_transfer` (lines 95-104 of `relayer.py`). -/
structure Authorization where
  fromAddr : String
  toAddr : String
  value : ℤ
  validAfter : ℤ
  validBefore : ℤ
  nonce : String
  deriving Repr, DecidableEq

/-- Hex digit value, or `none` (Python `ValueError`). -/
def hexDigit (c : Char) : Option ℕ :=
  if '0' ≤ c ∧ c ≤ '9' then some (c.toNat - '0'.toNat)
  else if 'a' ≤ c ∧ c ≤ 'f' then some (c.toNat - 'a'.toNat + 10)
  else if 'A' ≤ c ∧ c ≤ 'F' then some (c.toNat - 'A'.toNat + 10)
  else none

/-- `bytes.fromhex` on a list of characters: pairs of hex digits. -/
def hexPairs : List Char → Option (List ℕ)
  | [] => some []
  | [_] => none
  | a :: b :: rest => do
    let x ← hexDigit a
    let y ← hexDigit b
    let r ← hexPairs rest
    pure ((16 * x + y) :: r)

/-- `bytes.fromhex(signature[2:] if signature.startswith("0x") else signature)`. -/
def sigBytes (signature : String) : Option (List ℕ) :=
  hexPairs (if pyStartsWith signature "0x" then signature.drop 2 else signature).data

/-- `Relayer.parse_signature`: split a 65-byte compact signature into `(v, r, s)`,
normalizing `v` from the `{0, 1}` convention into `{27, 28}`; `none` models the
raised `ValueError`. -/
def parse_signature (signature : String) : Option (ℕ × List ℕ × List ℕ) :=
  match sigBytes signature with
  | none => none
  | some bytes =>
    if h : bytes.length = 65 then
      let r := bytes.take 32
      let s := (bytes.drop 32).take 32
      let v := bytes.getLast (by intro hn; simp [hn] at h)
      some (if v < 27 then v + 27 else v, r, s)
    else none

/-- Result record of `execute_transfer`. -/
structure ExecResult where
  verified : Bool
  tx_hash : Option String := none
  sender : Option String := none
  error : Option String := none
  deriving Repr, DecidableEq

/-- One chain interaction made by `execute_transfer`. -/
inductive ChainOp
  | getBalance
  | getTransactionCount
  | gasPrice
  | estimateGas
  | sendRaw
  | waitReceipt
  deriving Repr, DecidableEq

/-- The relayer's configuration: whether `RELAYER_PRIVATE_KEY` is set (lines 48-55
of `relayer.py`) and the derived gas account address. -/
structure RelayerCfg where
  hasKey : Bool
  address : String
  deriving Repr, DecidableEq

/-- The chain's answers for the one submission attempted by `execute_transfer`:
the gas account balance in wei, the gas estimation (`Except.error` models the
estimation raising), the hash assigned to the broadcast transaction, and the
receipt awaited (`none` models `wait_for_transaction_receipt` raising/timeout). -/
structure ChainEnv where
  balance : ℤ
  gasEstimate : Except String ℤ
  sentTxHash : String
  receiptStatus : Option ℕ
  waitErrMsg : String
  deriving Repr

/-- `Web3.to_wei(0.001, 'ether')`. -/
def MIN_GAS_BALANCE : ℤ := 10 ^ 15

/-- `Relayer.execute_transfer` (lines 74-227 of `relayer.py`), returning the
result record plus the trace of chain interactions performed.  `expected_amount`
is the exact value of the Python `float` passed for the dollar amount; the
dollars-to-micro-units conversion `int(expected_amount * 1_000_000)` is the
IEEE-754 multiplication followed by truncation.  The text of the
signature-parse exception caught by the outer `except` is abbreviated (the
code interpolates the exception's own message there). -/
def execute_transfer (cfg : RelayerCfg) (env : ChainEnv) (now : ℤ)
    (auth : Authorization) (signature : String)
    (expected_recipient : String) (expected_amount : ℚ) : ExecResult × List ChainOp :=
  let from_addr := to_checksum_address auth.fromAddr
  let to_addr := to_checksum_address auth.toAddr
  if pyLower to_addr ≠ pyLower expected_recipient then
    ({ verified := false,
       error := some ("Recipient mismatch: " ++ to_addr ++ " != " ++ expected_recipient) }, [])
  else
    let expected_micro := pyTrunc (float64 (expected_amount * 1000000))
    if auth.value < expected_micro then
      ({ verified := false,
         error := some ("Amount too low: " ++ toString auth.value ++ " < " ++ toString expected_micro) }, [])
    else if now < auth.validAfter then
      ({ verified := false,
         error := some ("Authorization not yet valid (validAfter: " ++ toString auth.validAfter ++ ")") }, [])
    else if auth.validBefore < now then
      ({ verified := false,
         error := some ("Authorization expired (validBefore: " ++ toString auth.validBefore ++ ")") }, [])
    else if ¬cfg.hasKey then
      ({ verified := true, tx_hash := some ("0x" ++ String.mk (List.replicate 64 '0')),
         sender := some from_addr }, [])
    else if env.balance < MIN_GAS_BALANCE then
      ({ verified := false,
         error := some "Relayer has insufficient gas. Please try again later." },
       [ChainOp.getBalance])
    else
      match parse_signature signature with
      | none =>
        -- the raised ValueError is caught by the outer `except`
        ({ verified := false,
           error := some ("Execution failed: Invalid signature length".take 100) },
         [ChainOp.getBalance])
      | some _ =>
        match env.gasEstimate with
        | Except.error e =>
          ({ verified := false,
             error := some ("Transaction would fail: " ++ e.take 100) },
           [ChainOp.getBalance, ChainOp.getTransactionCount, ChainOp.gasPrice,
            ChainOp.estimateGas])
        | Except.ok _ =>
          match env.receiptStatus with
          | some st =>
            if st = 1 then
              ({ verified := true, tx_hash := some env.sentTxHash,
                 sender := some from_addr },
               [ChainOp.getBalance, ChainOp.getTransactionCount, ChainOp.gasPrice,
                ChainOp.estimateGas, ChainOp.sendRaw, ChainOp.waitReceipt])
            else
              ({ verified := false, tx_hash := some env.sentTxHash,
                 error := some "Transaction reverted" },
               [ChainOp.getBalance, ChainOp.getTransactionCount, ChainOp.gasPrice,
                ChainOp.estimateGas, ChainOp.sendRaw, ChainOp.waitReceipt])
          | none =>
            ({ verified := false, tx_hash := some env.sentTxHash,
               error := some ("Transaction sent but confirmation failed: "
                 ++ env.waitErrMsg.take 100) },
             [ChainOp.getBalance, ChainOp.getTransactionCount, ChainOp.gasPrice,
              ChainOp.estimateGas, ChainOp.sendRaw, ChainOp.waitReceipt])

/-! ## `main.py`: the payment-proof decoder and the purchase endpoints

The database rows are records; `datetime`s are integer timestamps.  The JSON /
base64 libraries are oracles: for each of the first two wire formats the input
carries either the fields the code reads out of a successful parse, or `none`
when that branch raises (at any point) and control falls through to the next
format, exactly as the nested `try/except` at lines 342-392 of `main.py` does. -/

/-- A `purchases` table row, with the fields `x402_payment` and `confirm_purchase`
read and write. -/
structure Purchase where
  id : String
  domain : String
  years : ℕ
  amount : ℚ
  status : String
  created_at : ℤ
  expires_at : ℤ
  payer : Option String := none
  tx_hash : Option String := none
  registrant : Option String := none
  deriving Repr, DecidableEq

/-- A `domains` table row (a Domain Grant), as built by `x402_payment` /
`confirm_purchase` before `db.create_domain`. -/
structure Grant where
  domain_name : String
  expires_at : String
  nameservers : List String
  registered_at : ℤ
  owner_wallet : String
  registrant : Option String := none
  deriving Repr, DecidableEq

/-- `db.get_domain`: lookup of a grant by domain name. -/
def lookupGrant (domains : List (String × Grant)) (domain : String) : Option Grant :=
  (domains.find? (fun p => p.1 = domain)).map (fun p => p.2)

/-- The `payload.authorization` dict as the decoder leaves it: `present` is the
dict's truthiness, each field is the result of `.get(key, "")`-style access
(`""`, `0` for an absent field). -/
structure AuthD where
  present : Bool
  fromAddr : String := ""
  toAddr : String := ""
  value : ℤ := 0
  validAfter : ℤ := 0
  validBefore : ℤ := 0
  nonce : String := ""
  deriving Repr, DecidableEq

/-- The fields the base64-JSON branch (lines 343-376) reads from a successfully
decoded `X-PAYMENT` envelope.  `auth` is `payload.get("authorization", {})`
after the string-to-JSON fallback at lines 356-360. -/
structure B64Payload where
  payloadTransactionHash : String := ""
  payloadTxHash : String := ""
  transactionIsDict : Bool := false
  transactionHash : String := ""
  topTransactionHash : String := ""
  signature : String := ""
  auth : AuthD := { present := false }
  payloadPayer : String := ""
  payloadAddress : String := ""
  deriving Repr, DecidableEq

/-- The fields the bare-JSON branch (lines 379-383) reads. `payer` is `some`
exactly when the key is present (`payment_data.get("payer", "unknown")`). -/
structure JsonPayload where
  tx_hash : String := ""
  transactionHash : String := ""
  payer : Option String := none
  deriving Repr, DecidableEq

/-- A payment header value plus the parse oracles for its first two formats:
`b64 = none` / `json = none` model the corresponding `try` branch raising.
`legacyParams` are the `key="value"` pairs the regex at line 387 yields. -/
structure PaymentHeader where
  raw : String
  b64 : Option B64Payload := none
  json : Option JsonPayload := none
  legacyParams : List (String × String) := []
  deriving Repr, DecidableEq

/-- Python `a or b or ... or default` over strings (first truthy value). -/
def firstTruthy (default : String) : List String → String
  | [] => default
  | s :: rest => if s ≠ "" then s else firstTruthy default rest

/-- `params.get(key)` for the legacy attribute list. -/
def lookupParam (params : List (String × String)) (k : String) : Option String :=
  (params.find? (fun p => p.1 = k)).map (fun p => p.2)

/-- The decoded evidence: the four locals `tx_hash`, `payer`, `auth`, `signature`
of `x402_payment` after the decode block (lines 336-392). -/
structure Decoded where
  tx_hash : String
  payer : String
  auth : AuthD
  signature : String
  deriving Repr, DecidableEq

/-- The dict-to-`Authorization` reading `execute_transfer` performs on the decoded
`payload.authorization` (lines 95-104 of `relayer.py`). -/
def AuthD.toAuth (a : AuthD) : Authorization :=
  { fromAddr := a.fromAddr, toAddr := a.toAddr, value := a.value,
    validAfter := a.validAfter, validBefore := a.validBefore, nonce := a.nonce }

/-- The decode block of `x402_payment` (lines 336-392): base64 JSON first, bare
JSON second, the legacy `x402 key="value"` format last; each failure falls
through to the next.  The base64 branch's transaction-hash expression keeps
Python's conditional-expression precedence: the first two lookups only count
when `payload["transaction"]` is a dict, otherwise the hash is taken from the
envelope's top level. -/
def decode_payment_header (h : PaymentHeader) : Decoded :=
  match h.b64 with
  | some p =>
    { tx_hash :=
        if p.transactionIsDict then
          firstTruthy "" [p.payloadTransactionHash, p.payloadTxHash, p.transactionHash]
        else p.topTransactionHash,
      payer := firstTruthy "unknown" [p.auth.fromAddr, p.payloadPayer, p.payloadAddress],
      auth := p.auth,
      signature := p.signature }
  | none =>
    match h.json with
    | some j =>
      { tx_hash := firstTruthy "" [j.tx_hash, j.transactionHash],
        payer := j.payer.getD "unknown",
        auth := { present := false },
        signature := "" }
    | none =>
      if pyStartsWith h.raw "x402 " then
        { tx_hash := (lookupParam h.legacyParams "tx_hash").getD "",
          payer := (lookupParam h.legacyParams "payer").getD "unknown",
          auth := { present := false },
          signature := "" }
      else
        { tx_hash := "", payer := "unknown", auth := { present := false }, signature := "" }

/-- The configuration `main.py` reads from `config`:  treasury and stablecoin
contract addresses, `SKIP_PAYMENT_VERIFICATION`, `ENVIRONMENT`, the verifier's
mock mode (`config.MOCK_MODE`), and the relayer's key configuration. -/
structure Config where
  treasury : String
  usdcContract : String
  skipVerification : Bool
  environment : String
  mockVerifyMode : Bool
  relayer : RelayerCfg
  deriving Repr

/-- `porkbun.register_domain`'s answer (`Except.error` models the call raising). -/
structure RegResult where
  status : String
  expiration : Option String := none
  ns : Option (List String) := none
  deriving Repr, DecidableEq

/-- One external component invocation made by an endpoint. -/
inductive ExtCall
  | verifyPayment
  | relayerExecute
  | registrarRegister
  deriving Repr, DecidableEq

/-- The endpoint's HTTP answer (the response fields the claims are about). -/
inductive PayResp
  | success (domain : Option Grant) (tx_hash : Option String)
  | httpError (code : ℕ) (detail : String)
  | jsonError (code : ℕ) (errMsg : String)
  | challenge402 (amountMicro : ℤ) (payTo : String)
  deriving Repr, DecidableEq

/-- Everything one request leaves behind: the purchase row, the grant passed to
`db.create_domain` (if any), the external calls made, every value written to
the purchase's `status` column in order, and the response. -/
structure PayOutcome where
  purchase : Purchase
  grantCreated : Option Grant
  calls : List ExtCall
  statusUpdates : List String
  resp : PayResp
  deriving Repr

/-- The registration block shared by the two settled paths of `x402_payment`
(lines 427-471 and 505-549): call the registrar; a non-`SUCCESS` status leaves
`registration_failed`, an exception leaves `error`, success completes the
purchase and creates the Domain Grant owned by the verified payer. -/
def registerAndComplete (now : ℤ) (p1 : Purchase) (verified_payer tx : String)
    (registrar : Except String RegResult)
    (preCalls : List ExtCall) (preUpdates : List String) : PayOutcome :=
  match registrar with
  | Except.error _ =>
    { purchase := { p1 with status := "error" }, grantCreated := none,
      calls := preCalls ++ [ExtCall.registrarRegister],
      statusUpdates := preUpdates ++ ["error"],
      resp := PayResp.jsonError 500
        "An error occurred during registration. Please try again." }
  | Except.ok reg =>
    if reg.status ≠ "SUCCESS" then
      { purchase := { p1 with status := "registration_failed" }, grantCreated := none,
        calls := preCalls ++ [ExtCall.registrarRegister],
        statusUpdates := preUpdates ++ ["registration_failed"],
        resp := PayResp.jsonError 500
          "Domain registration failed. Please contact support." }
    else
      let grant : Grant :=
        { domain_name := p1.domain,
          expires_at := reg.expiration.getD "2027-01-28",
          nameservers := reg.ns.getD ["ns1.porkbun.com", "ns2.porkbun.com"],
          registered_at := now,
          owner_wallet := verified_payer,
          registrant := p1.registrant }
      { purchase := { p1 with status := "completed" }, grantCreated := some grant,
        calls := preCalls ++ [ExtCall.registrarRegister],
        statusUpdates := preUpdates ++ ["completed"],
        resp := PayResp.success (some grant) (some tx) }

/-- The `/purchase/pay/{purchase_id}` handler `x402_payment` (lines 316-594 of
`main.py`) for an existing purchase.  `header = none` is a request without
`X-PAYMENT`/`Authorization` header; `receipt` is the chain's receipt for
whatever hash the verifier is asked about; `env` is the chain as the relayer
sees it; `registrar` is `porkbun.register_domain`'s answer. -/
def x402_payment (cfg : Config) (now : ℤ) (purchase : Purchase)
    (domains : List (String × Grant)) (header : Option PaymentHeader)
    (receipt : Option Receipt) (env : ChainEnv)
    (registrar : Except String RegResult) : PayOutcome :=
  if purchase.status = "completed" then
    { purchase := purchase, grantCreated := none, calls := [], statusUpdates := [],
      resp := PayResp.success (lookupGrant domains purchase.domain) none }
  else if ¬(purchase.status = "pending" ∨ purchase.status = "awaiting_payment") then
    { purchase := purchase, grantCreated := none, calls := [], statusUpdates := [],
      resp := PayResp.httpError 400 ("Purchase status is " ++ purchase.status) }
  else
    match header with
    | none =>
      { purchase := { purchase with status := "awaiting_payment" },
        grantCreated := none, calls := [], statusUpdates := ["awaiting_payment"],
        resp := PayResp.challenge402
          (pyTrunc (float64 (float64 purchase.amount * 1000000))) cfg.treasury }
    | some h =>
      let p0 := { purchase with status := "processing" }
      let d := decode_payment_header h
      if d.tx_hash = "" then
        if d.auth.present ∧ d.signature ≠ "" ∧ d.auth.fromAddr ≠ "" ∧ d.auth.toAddr ≠ "" then
          let res := (execute_transfer cfg.relayer env now d.auth.toAuth d.signature
            cfg.treasury (float64 purchase.amount)).1
          if ¬res.verified then
            let emsg := res.error.getD "Unknown error"
            { purchase := { p0 with status := "awaiting_payment" }, grantCreated := none,
              calls := [ExtCall.relayerExecute],
              statusUpdates := ["processing", "awaiting_payment"],
              resp := PayResp.jsonError 400
                ("Payment execution failed: " ++ emsg ++ ". Please retry.") }
          else
            let tx := res.tx_hash.getD ""
            let verified_payer := res.sender.getD d.payer
            let p1 := { p0 with payer := some verified_payer, tx_hash := some tx }
            registerAndComplete now p1 verified_payer tx registrar
              [ExtCall.relayerExecute] ["processing"]
        else
          { purchase := { p0 with status := "awaiting_payment" }, grantCreated := none,
            calls := [], statusUpdates := ["processing", "awaiting_payment"],
            resp := PayResp.jsonError 400
              "Missing transaction hash or authorization in payment header. Please retry." }
      else
        if cfg.skipVerification then
          if cfg.environment = "production" then
            { purchase := { p0 with status := "payment_failed" }, grantCreated := none,
              calls := [], statusUpdates := ["processing", "payment_failed"],
              resp := PayResp.jsonError 500 "Payment verification misconfigured" }
          else
            -- `verification = {"verified": True, "mock": True, "sender": payer}`
            let p1 := { p0 with payer := some d.payer, tx_hash := some d.tx_hash }
            registerAndComplete now p1 d.payer d.tx_hash registrar [] ["processing"]
        else
          let v := if cfg.mockVerifyMode then
              mock_verify d.tx_hash purchase.amount cfg.treasury
            else verify_payment cfg.usdcContract receipt purchase.amount cfg.treasury
          if ¬v.verified then
            let emsg := v.error.getD "Unknown error"
            { purchase := { p0 with status := "payment_failed", tx_hash := some d.tx_hash },
              grantCreated := none, calls := [ExtCall.verifyPayment],
              statusUpdates := ["processing", "payment_failed"],
              resp := PayResp.jsonError 402
                ("Payment verification failed: " ++ emsg) }
          else
            let verified_payer := v.sender.getD d.payer
            let p1 := { p0 with payer := some verified_payer, tx_hash := some d.tx_hash }
            registerAndComplete now p1 verified_payer d.tx_hash registrar
              [ExtCall.verifyPayment] ["processing"]

/-- The `/purchase/confirm` handler's response. -/
inductive ConfirmResp
  | alreadyCompleted (g : Grant)
  | httpError (code : ℕ) (detail : String)
  | paymentFailed (error : String)
  | registrationFailed (error : String)
  | success (g : Grant)
  | errorResp (error : String)
  deriving Repr, DecidableEq

/-- Outcome record of one `/purchase/confirm` request. -/
structure ConfirmOutcome where
  purchase : Purchase
  grantCreated : Option Grant
  calls : List ExtCall
  statusUpdates : List String
  resp : ConfirmResp
  deriving Repr

/-- The `/purchase/confirm` handler `confirm_purchase` (lines 639-719 of
`main.py`): a `completed` purchase with an existing grant short-circuits; an
expired purchase is marked `expired`; otherwise the supplied hash is verified
(unless skipped) and the registrar is invoked. -/
def confirm_purchase (cfg : Config) (now : ℤ) (purchase : Purchase)
    (domains : List (String × Grant)) (req_tx_hash : String)
    (receipt : Option Receipt) (registrar : Except String RegResult) : ConfirmOutcome :=
  let rest : ConfirmOutcome :=
    if purchase.status = "failed" then
      { purchase := purchase, grantCreated := none, calls := [], statusUpdates := [],
        resp := ConfirmResp.httpError 400 "Purchase already failed" }
    else if purchase.expires_at < now then
      { purchase := { purchase with status := "expired" }, grantCreated := none,
        calls := [], statusUpdates := ["expired"],
        resp := ConfirmResp.httpError 400 "Purchase expired" }
    else
      let vcalls : List ExtCall :=
        if cfg.skipVerification then [] else [ExtCall.verifyPayment]
      let verified : Bool :=
        if cfg.skipVerification then true
        else if cfg.mockVerifyMode then
          (mock_verify req_tx_hash purchase.amount cfg.treasury).verified
        else (verify_payment cfg.usdcContract receipt purchase.amount cfg.treasury).verified
      if ¬verified then
        { purchase := { purchase with status := "payment_failed" }, grantCreated := none,
          calls := vcalls, statusUpdates := ["payment_failed"],
          resp := ConfirmResp.paymentFailed "Payment verification failed" }
      else
        match registrar with
        | Except.error _ =>
          { purchase := { purchase with status := "error" }, grantCreated := none,
            calls := vcalls ++ [ExtCall.registrarRegister], statusUpdates := ["error"],
            resp := ConfirmResp.errorResp "An error occurred during registration" }
        | Except.ok reg =>
          if reg.status ≠ "SUCCESS" then
            { purchase := { purchase with status := "registration_failed" },
              grantCreated := none,
              calls := vcalls ++ [ExtCall.registrarRegister],
              statusUpdates := ["registration_failed"],
              resp := ConfirmResp.registrationFailed "Domain registration failed" }
          else
            let grant : Grant :=
              { domain_name := purchase.domain,
                expires_at := reg.expiration.getD "2027-01-28",
                nameservers := reg.ns.getD ["ns1.porkbun.com", "ns2.porkbun.com"],
                registered_at := now,
                owner_wallet := purchase.payer.getD "",
                registrant := purchase.registrant }
            { purchase := { purchase with status := "completed", tx_hash := some req_tx_hash },
              grantCreated := some grant,
              calls := vcalls ++ [ExtCall.registrarRegister],
              statusUpdates := ["completed"],
              resp := ConfirmResp.success grant }
  if purchase.status = "completed" then
    match lookupGrant domains purchase.domain with
    | some g =>
      { purchase := purchase, grantCreated := none, calls := [], statusUpdates := [],
        resp := ConfirmResp.alreadyCompleted g }
    | none => rest
  else rest

/-! ## Configuration constants (`config.py` defaults) -/

/-- `USDC_CONTRACT` (`config.py` line 30). -/
def USDC_CONTRACT : String := "0x833589fCD6eDb6E08f4c7C32D4f71b54bdA02913"

/-- The default `TREASURY_ADDRESS` (`config.py` line 28). -/
def TREASURY_ADDRESS : String := "0x742D35cc6634C0532925a3B844bc9E7595f5BE91"

/-! ## Lemmas about the transfer-log scan -/

/-- A log that fails the contract, signature or recipient test is skipped and the
scan continues. -/
theorem scanLogs_skip_one (usdc treasury : String) (e : ℚ) (l : TxLog) (rest : List TxLog)
    (h : pyLower l.address ≠ usdc ∨ l.topic0 ≠ TRANSFER_TOPIC ∨
      pyLower (decodeTopicAddr l.topic2) ≠ pyLower treasury) :
    scanLogs usdc treasury e (l :: rest) = scanLogs usdc treasury e rest := by
  rcases h with h | h | h <;> simp [scanLogs, h]

/-- A prefix of non-matching logs does not change the scan's outcome. -/
theorem scanLogs_skip (usdc treasury : String) (e : ℚ) (pre rest : List TxLog)
    (h : ∀ l ∈ pre, pyLower l.address ≠ usdc ∨ l.topic0 ≠ TRANSFER_TOPIC ∨
      pyLower (decodeTopicAddr l.topic2) ≠ pyLower treasury) :
    scanLogs usdc treasury e (pre ++ rest) = scanLogs usdc treasury e rest := by
  induction pre with
  | nil => rfl
  | cons l pre ih =>
    rw [List.cons_append, scanLogs_skip_one usdc treasury e l (pre ++ rest)
      (h l (List.mem_cons_self l pre))]
    exact ih fun l' hl' => h l' (List.mem_cons_of_mem l hl')

/-- A matching head log with a sufficient amount is accepted with its decoded
sender. -/
theorem scanLogs_accept (usdc treasury : String) (e : ℚ) (l : TxLog) (rest : List TxLog)
    (h1 : pyLower l.address = usdc) (h2 : l.topic0 = TRANSFER_TOPIC)
    (h3 : pyLower (decodeTopicAddr l.topic2) = pyLower treasury)
    (h4 : e ≤ (l.dataAmount : ℚ) / (10 ^ USDC_DECIMALS : ℚ)) :
    scanLogs usdc treasury e (l :: rest) =
      { verified := true,
        amount := some ((l.dataAmount : ℚ) / (10 ^ USDC_DECIMALS : ℚ)),
        sender := some (decodeTopicAddr l.topic1),
        recipient := some (decodeTopicAddr l.topic2), error := none } := by
  have h4' : ¬ ((l.dataAmount : ℚ) / (10 ^ USDC_DECIMALS : ℚ) < e) := not_lt.mpr h4
  push_cast at h4'
  simp [scanLogs, h1, h2, h3, h4']

/-- **C1.**  The claim as frozen is refuted by `C1_counterexample`; what the code
satisfies is the amended claim: if, additionally, **no earlier log of the
receipt** is a stablecoin Transfer addressed (case-insensitively) to the
expected recipient, then a successful receipt containing a qualifying log —
stablecoin source, Transfer signature, recipient match, amount ≥ expected —
makes `verify_payment` return `verified = true` with that log's decoded
sender, wherever the log sits and whatever other (non-treasury) Transfer logs
surround it. -/
theorem C1_verify_accepts_first_treasury_match
    (usdc treasury : String) (e : ℚ) (pre post : List TxLog) (l : TxLog)
    (hpre : ∀ l' ∈ pre, pyLower l'.address ≠ pyLower usdc ∨
      l'.topic0 ≠ TRANSFER_TOPIC ∨
      pyLower (decodeTopicAddr l'.topic2) ≠ pyLower treasury)
    (h1 : pyLower l.address = pyLower usdc) (h2 : l.topic0 = TRANSFER_TOPIC)
    (h3 : pyLower (decodeTopicAddr l.topic2) = pyLower treasury)
    (h4 : e ≤ (l.dataAmount : ℚ) / (10 ^ USDC_DECIMALS : ℚ)) :
    verify_payment usdc (some { status := 1, logs := pre ++ l :: post }) e treasury =
      { verified := true,
        amount := some ((l.dataAmount : ℚ) / (10 ^ USDC_DECIMALS : ℚ)),
        sender := some (decodeTopicAddr l.topic1),
        recipient := some (decodeTopicAddr l.topic2), error := none } := by
  unfold verify_payment
  simp only [ne_eq, reduceIte]
  rw [scanLogs_skip _ _ _ _ _ hpre, scanLogs_accept _ _ _ _ _ h1 h2 h3 h4]
  simp

/-- Witness for C1's amended theorem: a successful receipt whose first log is a
treasury-addressed USDC Transfer of 20 USDC against an expectation of 5, after
a non-treasury Transfer log; it verifies with the matching log's sender. -/
theorem C1_witness :
    verify_payment USDC_CONTRACT (some
      { status := 1,
        logs := [
          { address := USDC_CONTRACT, topic0 := TRANSFER_TOPIC,
            topic1 := "0x000000000000000000000000aaaaaaaaaaaaaaaaaaaaaaaaaaaaaaaaaaaaaaaa",
            topic2 := "0x000000000000000000000000cccccccccccccccccccccccccccccccccccccccc",
            dataAmount := 30000000 },
          { address := USDC_CONTRACT, topic0 := TRANSFER_TOPIC,
            topic1 := "0x000000000000000000000000bbbbbbbbbbbbbbbbbbbbbbbbbbbbbbbbbbbbbbbb",
            topic2 := "0x000000000000000000000000742d35cc6634c0532925a3b844bc9e7595f5be91",
            dataAmount := 20000000 } ] }) 5 TREASURY_ADDRESS =
      { verified := true,
        amount := some (((20000000 : ℕ) : ℚ) / (10 ^ USDC_DECIMALS : ℚ)),
        sender := some "0xbbbbbbbbbbbbbbbbbbbbbbbbbbbbbbbbbbbbbbbb",
        recipient := some "0x742d35cc6634c0532925a3b844bc9e7595f5be91",
        error := none } :=
  C1_verify_accepts_first_treasury_match USDC_CONTRACT TREASURY_ADDRESS 5
    [{ address := USDC_CONTRACT, topic0 := TRANSFER_TOPIC,
       topic1 := "0x000000000000000000000000aaaaaaaaaaaaaaaaaaaaaaaaaaaaaaaaaaaaaaaa",
       topic2 := "0x000000000000000000000000cccccccccccccccccccccccccccccccccccccccc",
       dataAmount := 30000000 }] []
    { address := USDC_CONTRACT, topic0 := TRANSFER_TOPIC,
      topic1 := "0x000000000000000000000000bbbbbbbbbbbbbbbbbbbbbbbbbbbbbbbbbbbbbbbb",
      topic2 := "0x000000000000000000000000742d35cc6634c0532925a3b844bc9e7595f5be91",
      dataAmount := 20000000 }
    (by decide) (by decide) (by decide) (by decide)
    (by norm_num [USDC_DECIMALS])

/-- Counterexample to C1 as frozen: the receipt succeeded and its **second** log
is a treasury-addressed USDC Transfer of 20 USDC ≥ the expected 10, yet
`verify_payment` returns `verified = false`, because the **first**
treasury-addressed log (5 USDC) short-circuits the scan with a shortfall
error instead of being skipped. -/
theorem C1_counterexample :
    (verify_payment USDC_CONTRACT (some
      { status := 1,
        logs := [
          { address := USDC_CONTRACT, topic0 := TRANSFER_TOPIC,
            topic1 := "0x000000000000000000000000aaaaaaaaaaaaaaaaaaaaaaaaaaaaaaaaaaaaaaaa",
            topic2 := "0x000000000000000000000000742d35cc6634c0532925a3b844bc9e7595f5be91",
            dataAmount := 5000000 },
          { address := USDC_CONTRACT, topic0 := TRANSFER_TOPIC,
            topic1 := "0x000000000000000000000000bbbbbbbbbbbbbbbbbbbbbbbbbbbbbbbbbbbbbbbb",
            topic2 := "0x000000000000000000000000742d35cc6634c0532925a3b844bc9e7595f5be91",
            dataAmount := 20000000 } ] }) 10 TREASURY_ADDRESS).verified = false
    ∧ pyLower (decodeTopicAddr
        "0x000000000000000000000000742d35cc6634c0532925a3b844bc9e7595f5be91") =
        pyLower TREASURY_ADDRESS
    ∧ (10 : ℚ) ≤ ((20000000 : ℕ) : ℚ) / (10 ^ USDC_DECIMALS : ℚ) := by
  refine ⟨?_, by decide, by norm_num [USDC_DECIMALS]⟩
  have hrec : pyLower (decodeTopicAddr
      "0x000000000000000000000000742d35cc6634c0532925a3b844bc9e7595f5be91") =
      pyLower TREASURY_ADDRESS := by decide
  have hamt : ((5000000 : ℕ) : ℚ) / (10 ^ USDC_DECIMALS : ℚ) < 10 := by
    norm_num [USDC_DECIMALS]
  push_cast at hamt
  simp [verify_payment, scanLogs, hrec, hamt]

/-! ## Concrete evaluations of the binary64 model

`float(Decimal("8.2"))` is `2308094809027379 / 2^48`, and Python's
`int(8.2 * 1_000_000)` is `8199999` — one micro-unit below the exact
conversion `8_200_000`.  `float(Decimal("12.99"))` converts exactly:
`int(12.99 * 1_000_000) = 12_990_000`. -/

theorem pow2_nonneg_eval (e : ℤ) (n : ℕ) (he : 0 ≤ e) (h : (2 : ℕ) ^ e.toNat = n) :
    pow2 e = (n : ℚ) := by simp [pow2, he, h]

theorem pow2_neg_eval (e : ℤ) (n : ℕ) (he : ¬0 ≤ e) (h : (2 : ℕ) ^ (-e).toNat = n) :
    pow2 e = 1 / (n : ℚ) := by simp [pow2, he, h]

theorem float64_of_8_20 : float64 (41 / 5) = 2308094809027379 / 281474976710656 := by
  have hlog : ratLog2 (41 / 5) = 3 := by
    have hnum : (41 / 5 : ℚ).num = 41 := by norm_num
    have hden : (41 / 5 : ℚ).den = 5 := by norm_num
    rw [ratLog2, hnum, hden]
    norm_num [show ((41 : ℤ).toNat) = 41 from rfl, show natLog2 41 = 5 from by decide,
      show natLog2 5 = 2 from by decide,
      pow2_nonneg_eval 3 8 (by decide) (by decide),
      pow2_nonneg_eval 4 16 (by decide) (by decide)]
  rw [float64, if_neg (by norm_num), if_pos (by norm_num), float64Pos, hlog]
  have hp : pow2 (3 - 52) = 1 / (562949953421312 : ℚ) := by
    rw [show (3 : ℤ) - 52 = -49 from by norm_num]
    exact pow2_neg_eval (-49) 562949953421312 (by decide) (by decide)
  rw [hp]
  have harg : (41 / 5 : ℚ) / (1 / (562949953421312 : ℚ)) = 23080948090273792 / 5 := by
    norm_num
  rw [harg]
  have hrhe : roundHalfEven (23080948090273792 / 5 : ℚ) = 4616189618054758 := by
    have hnum : (23080948090273792 / 5 : ℚ).num = 23080948090273792 := by norm_num
    have hden : (23080948090273792 / 5 : ℚ).den = 5 := by norm_num
    rw [roundHalfEven, ratFloor, hnum, hden]
    norm_num [show Int.fdiv 23080948090273792 5 = 4616189618054758 from by decide]
  rw [hrhe]
  norm_num

theorem micro_of_8_20 : pyTrunc (float64 (float64 (41 / 5) * 1000000)) = 8199999 := by
  rw [float64_of_8_20]
  have hprod : (2308094809027379 / 281474976710656 : ℚ) * 1000000 =
      36063981391052796875 / 4398046511104 := by norm_num
  rw [hprod]
  have hlog : ratLog2 (36063981391052796875 / 4398046511104) = 22 := by
    have hnum : (36063981391052796875 / 4398046511104 : ℚ).num = 36063981391052796875 := by
      norm_num
    have hden : (36063981391052796875 / 4398046511104 : ℚ).den = 4398046511104 := by
      norm_num
    rw [ratLog2, hnum, hden]
    norm_num [show ((36063981391052796875 : ℤ).toNat) = 36063981391052796875 from rfl,
      show natLog2 36063981391052796875 = 64 from by decide,
      show natLog2 4398046511104 = 42 from by decide,
      pow2_nonneg_eval 22 4194304 (by decide) (by decide),
      pow2_nonneg_eval 23 8388608 (by decide) (by decide)]
  have hval : float64 (36063981391052796875 / 4398046511104) =
      8804682956799999 / 1073741824 := by
    rw [float64, if_neg (by norm_num), if_pos (by norm_num), float64Pos, hlog]
    have hp : pow2 (22 - 52) = 1 / (1073741824 : ℚ) := by
      rw [show (22 : ℤ) - 52 = -30 from by norm_num]
      exact pow2_neg_eval (-30) 1073741824 (by decide) (by decide)
    rw [hp]
    have harg : (36063981391052796875 / 4398046511104 : ℚ) / (1 / (1073741824 : ℚ)) =
        36063981391052796875 / 4096 := by norm_num
    rw [harg]
    have hrhe : roundHalfEven (36063981391052796875 / 4096 : ℚ) = 8804682956799999 := by
      have hnum : (36063981391052796875 / 4096 : ℚ).num = 36063981391052796875 := by
        norm_num
      have hden : (36063981391052796875 / 4096 : ℚ).den = 4096 := by norm_num
      rw [roundHalfEven, ratFloor, hnum, hden]
      norm_num [show Int.fdiv 36063981391052796875 4096 = 8804682956799999 from by decide]
    rw [hrhe]
    norm_num
  rw [hval, pyTrunc, if_pos (by norm_num), ratFloor]
  have hnum : (8804682956799999 / 1073741824 : ℚ).num = 8804682956799999 := by norm_num
  have hden : (8804682956799999 / 1073741824 : ℚ).den = 1073741824 := by norm_num
  rw [hnum, hden]
  decide

theorem float64_of_12_99 : float64 (1299 / 100) = 7312719894942843 / 562949953421312 := by
  have hlog : ratLog2 (1299 / 100) = 3 := by
    have hnum : (1299 / 100 : ℚ).num = 1299 := by norm_num
    have hden : (1299 / 100 : ℚ).den = 100 := by norm_num
    rw [ratLog2, hnum, hden]
    norm_num [show ((1299 : ℤ).toNat) = 1299 from rfl, show natLog2 1299 = 10 from by decide,
      show natLog2 100 = 6 from by decide,
      pow2_nonneg_eval 4 16 (by decide) (by decide),
      pow2_nonneg_eval 3 8 (by decide) (by decide)]
  rw [float64, if_neg (by norm_num), if_pos (by norm_num), float64Pos, hlog]
  have hp : pow2 (3 - 52) = 1 / (562949953421312 : ℚ) := by
    rw [show (3 : ℤ) - 52 = -49 from by norm_num]
    exact pow2_neg_eval (-49) 562949953421312 (by decide) (by decide)
  rw [hp]
  have harg : (1299 / 100 : ℚ) / (1 / (562949953421312 : ℚ)) =
      182817997373571072 / 25 := by norm_num
  rw [harg]
  have hrhe : roundHalfEven (182817997373571072 / 25 : ℚ) = 7312719894942843 := by
    have hnum : (182817997373571072 / 25 : ℚ).num = 182817997373571072 := by norm_num
    have hden : (182817997373571072 / 25 : ℚ).den = 25 := by norm_num
    rw [roundHalfEven, ratFloor, hnum, hden]
    norm_num [show Int.fdiv 182817997373571072 25 = 7312719894942842 from by decide]
  rw [hrhe]
  norm_num

theorem micro_of_12_99 : pyTrunc (float64 (float64 (1299 / 100) * 1000000)) = 12990000 := by
  rw [float64_of_12_99]
  have hprod : (7312719894942843 / 562949953421312 : ℚ) * 1000000 =
      114261248358481921875 / 8796093022208 := by norm_num
  rw [hprod]
  have hlog : ratLog2 (114261248358481921875 / 8796093022208) = 23 := by
    have hnum : (114261248358481921875 / 8796093022208 : ℚ).num =
        114261248358481921875 := by norm_num
    have hden : (114261248358481921875 / 8796093022208 : ℚ).den = 8796093022208 := by
      norm_num
    rw [ratLog2, hnum, hden]
    norm_num [show ((114261248358481921875 : ℤ).toNat) = 114261248358481921875 from rfl,
      show natLog2 114261248358481921875 = 66 from by decide,
      show natLog2 8796093022208 = 43 from by decide,
      pow2_nonneg_eval 23 8388608 (by decide) (by decide),
      pow2_nonneg_eval 24 16777216 (by decide) (by decide)]
  have hval : float64 (114261248358481921875 / 8796093022208) = 12990000 := by
    rw [float64, if_neg (by norm_num), if_pos (by norm_num), float64Pos, hlog]
    have hp : pow2 (23 - 52) = 1 / (536870912 : ℚ) := by
      rw [show (23 : ℤ) - 52 = -29 from by norm_num]
      exact pow2_neg_eval (-29) 536870912 (by decide) (by decide)
    rw [hp]
    have harg : (114261248358481921875 / 8796093022208 : ℚ) / (1 / (536870912 : ℚ)) =
        114261248358481921875 / 16384 := by norm_num
    rw [harg]
    have hrhe : roundHalfEven (114261248358481921875 / 16384 : ℚ) = 6973953146880000 := by
      have hnum : (114261248358481921875 / 16384 : ℚ).num = 114261248358481921875 := by
        norm_num
      have hden : (114261248358481921875 / 16384 : ℚ).den = 16384 := by norm_num
      rw [roundHalfEven, ratFloor, hnum, hden]
      norm_num [show Int.fdiv 114261248358481921875 16384 = 6973953146880000 from by decide]
    rw [hrhe]
    norm_num
  rw [hval, pyTrunc, if_pos (by norm_num), ratFloor]
  norm_num

/-! ## Relayer theorems -/

/-- The premature and the expired rejection carry distinct error messages,
whatever the interpolated bounds are. -/
theorem premature_msg_ne_expired_msg (a b : ℤ) :
    ("Authorization not yet valid (validAfter: " ++ toString a ++ ")" : String) ≠
      ("Authorization expired (validBefore: " ++ toString b ++ ")" : String) := by
  intro h
  have hap : ∀ s t : String, (s ++ t).data = s.data ++ t.data := fun _ _ => rfl
  have hd := congrArg String.data h
  simp only [hap, List.append_assoc] at hd
  have h15a : ("Authorization not yet valid (validAfter: " : String).data.length ≥ 15 := by
    decide
  have h15b : ("Authorization expired (validBefore: " : String).data.length ≥ 15 := by
    decide
  have ht := congrArg (fun l => List.take 15 l) hd
  simp only [List.take_append_of_le_length h15a, List.take_append_of_le_length h15b] at ht
  exact absurd ht (by decide)

/-- **C4.**  An authorization whose `valid_before` is strictly past, or whose
`valid_after` is strictly future, is rejected (`verified = false`) with **no**
chain interaction; when the time check is the one that fires (recipient and
amount checks pass) the error message is the premature ("not yet valid") or the
expired one respectively, and those two messages are distinct for all bounds. -/
theorem C4_time_window_rejected_without_chain
    (cfg : RelayerCfg) (env : ChainEnv) (now : ℤ) (auth : Authorization)
    (sig recipient : String) (amt : ℚ)
    (h : auth.validBefore < now ∨ now < auth.validAfter) :
    ((execute_transfer cfg env now auth sig recipient amt).1.verified = false ∧
      (execute_transfer cfg env now auth sig recipient amt).2 = []) ∧
    (pyLower (to_checksum_address auth.toAddr) = pyLower recipient →
      ¬auth.value < pyTrunc (float64 (amt * 1000000)) →
      (execute_transfer cfg env now auth sig recipient amt).1.error =
        some (if now < auth.validAfter then
          "Authorization not yet valid (validAfter: " ++ toString auth.validAfter ++ ")"
        else
          "Authorization expired (validBefore: " ++ toString auth.validBefore ++ ")")) ∧
    (∀ a b : ℤ,
      ("Authorization not yet valid (validAfter: " ++ toString a ++ ")" : String) ≠
        ("Authorization expired (validBefore: " ++ toString b ++ ")" : String)) := by
  refine ⟨?_, ?_, fun a b => premature_msg_ne_expired_msg a b⟩
  · by_cases hr : pyLower (to_checksum_address auth.toAddr) ≠ pyLower recipient
    · simp [execute_transfer, hr]
    · by_cases ha : auth.value < pyTrunc (float64 (amt * 1000000))
      · simp [execute_transfer, hr, ha]
      · by_cases hp : now < auth.validAfter
        · simp [execute_transfer, hr, ha, hp]
        · have he : auth.validBefore < now := by omega
          simp [execute_transfer, hr, ha, hp, he]
  · intro hr ha
    by_cases hp : now < auth.validAfter
    · simp [execute_transfer, hr, ha, hp]
    · have he : auth.validBefore < now := by omega
      simp [execute_transfer, hr, ha, hp, he]

/-- Witness for C4 at a concrete input: an authorization expired at time
`now = 1700000100` (validBefore `1700000000`), rejected with the expired
message and an empty chain trace. -/
theorem C4_witness :
    ((execute_transfer { hasKey := true, address := "0xrelayer" }
        { balance := 10 ^ 18, gasEstimate := Except.ok 60000, sentTxHash := "0xdead",
          receiptStatus := some 1, waitErrMsg := "" }
        1700000100
        { fromAddr := "0xabc", toAddr := TREASURY_ADDRESS, value := 13000000,
          validAfter := 0, validBefore := 1700000000, nonce := "0x01" }
        "" TREASURY_ADDRESS (float64 (1299 / 100))).1.verified = false ∧
      (execute_transfer { hasKey := true, address := "0xrelayer" }
        { balance := 10 ^ 18, gasEstimate := Except.ok 60000, sentTxHash := "0xdead",
          receiptStatus := some 1, waitErrMsg := "" }
        1700000100
        { fromAddr := "0xabc", toAddr := TREASURY_ADDRESS, value := 13000000,
          validAfter := 0, validBefore := 1700000000, nonce := "0x01" }
        "" TREASURY_ADDRESS (float64 (1299 / 100))).2 = []) ∧
    (pyLower (to_checksum_address TREASURY_ADDRESS) = pyLower TREASURY_ADDRESS →
      ¬(13000000 : ℤ) < pyTrunc (float64 (float64 (1299 / 100) * 1000000)) →
      (execute_transfer { hasKey := true, address := "0xrelayer" }
        { balance := 10 ^ 18, gasEstimate := Except.ok 60000, sentTxHash := "0xdead",
          receiptStatus := some 1, waitErrMsg := "" }
        1700000100
        { fromAddr := "0xabc", toAddr := TREASURY_ADDRESS, value := 13000000,
          validAfter := 0, validBefore := 1700000000, nonce := "0x01" }
        "" TREASURY_ADDRESS (float64 (1299 / 100))).1.error =
        some (if (1700000100 : ℤ) < 0 then
          "Authorization not yet valid (validAfter: " ++ toString (0 : ℤ) ++ ")"
        else
          "Authorization expired (validBefore: " ++ toString (1700000000 : ℤ) ++ ")")) ∧
    (∀ a b : ℤ,
      ("Authorization not yet valid (validAfter: " ++ toString a ++ ")" : String) ≠
        ("Authorization expired (validBefore: " ++ toString b ++ ")" : String)) :=
  C4_time_window_rejected_without_chain
    { hasKey := true, address := "0xrelayer" }
    { balance := 10 ^ 18, gasEstimate := Except.ok 60000, sentTxHash := "0xdead",
      receiptStatus := some 1, waitErrMsg := "" }
    1700000100
    { fromAddr := "0xabc", toAddr := TREASURY_ADDRESS, value := 13000000,
      validAfter := 0, validBefore := 1700000000, nonce := "0x01" }
    "" TREASURY_ADDRESS (float64 (1299 / 100)) (Or.inl (by decide))

/-- **C6.**  The claim as frozen ("exact arithmetic", "any strictly smaller value
is rejected") is refuted by `C6_counterexample`; what the code satisfies is the
amended claim: the expected dollar amount is converted by the **binary
floating-point** multiplication `int(expected_amount * 1_000_000)` — which can
truncate one micro-unit below the exact decimal conversion — and the
authorization is rejected exactly when its value is strictly below **that**
converted amount. -/
theorem C6_amount_threshold_is_float_conversion
    (cfg : RelayerCfg) (env : ChainEnv) (now : ℤ) (auth : Authorization)
    (sig recipient : String) (amt : ℚ)
    (hrec : pyLower (to_checksum_address auth.toAddr) = pyLower recipient) :
    (auth.value < pyTrunc (float64 (amt * 1000000)) →
      execute_transfer cfg env now auth sig recipient amt =
        ({ verified := false,
           error := some ("Amount too low: " ++ toString auth.value ++ " < " ++
             toString (pyTrunc (float64 (amt * 1000000)))) }, [])) ∧
    (cfg.hasKey = false → auth.validAfter ≤ now → now ≤ auth.validBefore →
      ((execute_transfer cfg env now auth sig recipient amt).1.verified = true ↔
        pyTrunc (float64 (amt * 1000000)) ≤ auth.value)) := by
  constructor
  · intro hlt
    simp [execute_transfer, hrec, hlt]
  · intro hk h1 h2
    by_cases hlt : auth.value < pyTrunc (float64 (amt * 1000000))
    · simp [execute_transfer, hrec, hlt]
    · simp [execute_transfer, hrec, hlt, hk, not_lt.mpr h1, not_lt.mpr h2]
      omega

/-- Witness for C6's amended theorem at the amount `8.20`: the code's converted
threshold is `8199999` micro-units, a value of exactly `8199999` passes the
amount check (and verifies in the keyless configuration), and a value of
`8199998` is rejected with the shortfall message against `8199999`. -/
theorem C6_witness :
    pyTrunc (float64 (float64 (41 / 5) * 1000000)) = 8199999 ∧
    ((execute_transfer { hasKey := false, address := "" }
        { balance := 0, gasEstimate := Except.ok 0, sentTxHash := "",
          receiptStatus := none, waitErrMsg := "" } 1000
        { fromAddr := "0xabc", toAddr := TREASURY_ADDRESS, value := 8199999,
          validAfter := 0, validBefore := 2000000000, nonce := "0x01" }
        "" TREASURY_ADDRESS (float64 (41 / 5))).1.verified = true) ∧
    execute_transfer { hasKey := false, address := "" }
        { balance := 0, gasEstimate := Except.ok 0, sentTxHash := "",
          receiptStatus := none, waitErrMsg := "" } 1000
        { fromAddr := "0xabc", toAddr := TREASURY_ADDRESS, value := 8199998,
          validAfter := 0, validBefore := 2000000000, nonce := "0x01" }
        "" TREASURY_ADDRESS (float64 (41 / 5)) =
      ({ verified := false, error := some "Amount too low: 8199998 < 8199999" }, []) := by
  refine ⟨micro_of_8_20, ?_, ?_⟩
  · exact ((C6_amount_threshold_is_float_conversion
      { hasKey := false, address := "" }
      { balance := 0, gasEstimate := Except.ok 0, sentTxHash := "",
        receiptStatus := none, waitErrMsg := "" } 1000
      { fromAddr := "0xabc", toAddr := TREASURY_ADDRESS, value := 8199999,
        validAfter := 0, validBefore := 2000000000, nonce := "0x01" }
      "" TREASURY_ADDRESS (float64 (41 / 5)) (by decide)).2 rfl (by decide)
      (by decide)).mpr (by rw [micro_of_8_20])
  · have h := (C6_amount_threshold_is_float_conversion
      { hasKey := false, address := "" }
      { balance := 0, gasEstimate := Except.ok 0, sentTxHash := "",
        receiptStatus := none, waitErrMsg := "" } 1000
      { fromAddr := "0xabc", toAddr := TREASURY_ADDRESS, value := 8199998,
        validAfter := 0, validBefore := 2000000000, nonce := "0x01" }
      "" TREASURY_ADDRESS (float64 (41 / 5)) (by decide)).1
      (by rw [micro_of_8_20]; decide)
    rw [h, micro_of_8_20]
    decide

/-- Counterexample to C6 as frozen: for the purchase amount `8.20` dollars the
exact conversion is `8_200_000` micro-units, yet the authorization value
`8_199_999` — strictly below the exact conversion by one smallest unit — is
**accepted** (and verifies), because the code's float conversion
`int(float(Decimal("8.2")) * 1_000_000)` yields `8_199_999`, not `8_200_000`. -/
theorem C6_counterexample :
    (41 / 5 : ℚ) * 1000000 = 8200000 ∧
    (8199999 : ℤ) < 8200000 ∧
    ((execute_transfer { hasKey := false, address := "" }
        { balance := 0, gasEstimate := Except.ok 0, sentTxHash := "",
          receiptStatus := none, waitErrMsg := "" } 1000
        { fromAddr := "0xabc", toAddr := TREASURY_ADDRESS, value := 8199999,
          validAfter := 0, validBefore := 2000000000, nonce := "0x01" }
        "" TREASURY_ADDRESS (float64 (41 / 5))).1.verified = true) ∧
    pyTrunc (float64 (float64 (41 / 5) * 1000000)) = 8199999 := by
  refine ⟨by norm_num, by decide, ?_, micro_of_8_20⟩
  have hrec : ¬(pyLower (to_checksum_address TREASURY_ADDRESS) ≠
      pyLower TREASURY_ADDRESS) := by decide
  have hval : ¬((8199999 : ℤ) < pyTrunc (float64 (float64 (41 / 5) * 1000000))) := by
    rw [micro_of_8_20]
    decide
  simp [execute_transfer, hrec, hval]

/-- **C10.**  With no relayer private key configured, an authorization that
passes the recipient, amount and time-window checks is reported
`verified = true` with the authorization's `from` as sender and the all-zero
transaction hash, with **no** chain interaction of any kind; consequently a
purchase paying through this path completes (given a successful registrar)
with that fake hash recorded — no funds ever moved. -/
theorem C10_no_key_simulates_success
    (cfg : RelayerCfg) (env : ChainEnv) (now : ℤ) (auth : Authorization)
    (sig recipient : String) (amt : ℚ)
    (hkey : cfg.hasKey = false)
    (hrec : pyLower (to_checksum_address auth.toAddr) = pyLower recipient)
    (hamt : ¬auth.value < pyTrunc (float64 (amt * 1000000)))
    (h1 : ¬now < auth.validAfter) (h2 : ¬auth.validBefore < now) :
    execute_transfer cfg env now auth sig recipient amt =
      ({ verified := true, tx_hash := some ("0x" ++ String.mk (List.replicate 64 '0')),
         sender := some (to_checksum_address auth.fromAddr), error := none }, []) ∧
    (∀ (tcfg : Config) (purch : Purchase) (hh : PaymentHeader)
        (domains : List (String × Grant)) (receipt : Option Receipt) (reg : RegResult),
      tcfg.relayer = cfg → tcfg.treasury = recipient →
      purch.status = "awaiting_payment" → float64 purch.amount = amt →
      (decode_payment_header hh).tx_hash = "" →
      (decode_payment_header hh).auth =
        { present := true, fromAddr := auth.fromAddr, toAddr := auth.toAddr,
          value := auth.value, validAfter := auth.validAfter,
          validBefore := auth.validBefore, nonce := auth.nonce } →
      (decode_payment_header hh).signature = sig → sig ≠ "" →
      auth.fromAddr ≠ "" → auth.toAddr ≠ "" → reg.status = "SUCCESS" →
      ((x402_payment tcfg now purch domains (some hh) receipt env
          (Except.ok reg)).purchase.status = "completed" ∧
        (x402_payment tcfg now purch domains (some hh) receipt env
          (Except.ok reg)).purchase.tx_hash =
            some ("0x" ++ String.mk (List.replicate 64 '0')) ∧
        (x402_payment tcfg now purch domains (some hh) receipt env
          (Except.ok reg)).purchase.payer =
            some (to_checksum_address auth.fromAddr))) := by
  have hexec : execute_transfer cfg env now auth sig recipient amt =
      ({ verified := true, tx_hash := some ("0x" ++ String.mk (List.replicate 64 '0')),
         sender := some (to_checksum_address auth.fromAddr), error := none }, []) := by
    simp [execute_transfer, hrec, hamt, h1, h2, hkey]
  refine ⟨hexec, ?_⟩
  intro tcfg purch hh domains receipt reg hc ht hs hamt' hdtx hdauth hdsig hsig hf hto hreg
  simp [x402_payment, AuthD.toAuth, hs, hdtx, hdauth, hdsig, hsig, hf, hto, hc, ht,
    hamt', hexec, registerAndComplete, hreg]

/-- Witness for C10: a keyless relayer configuration, a `12.99` purchase and a
well-formed authorization for `13` USDC; the relayer reports success with the
all-zero hash and no chain call, and the purchase completes. -/
theorem C10_witness :
    execute_transfer { hasKey := false, address := "" }
      { balance := 0, gasEstimate := Except.ok 0, sentTxHash := "",
        receiptStatus := none, waitErrMsg := "" } 1700000000
      { fromAddr := "0xabc", toAddr := TREASURY_ADDRESS, value := 13000000,
        validAfter := 0, validBefore := 2000000000, nonce := "0x01" }
      "0xsig" TREASURY_ADDRESS (float64 (1299 / 100)) =
      ({ verified := true, tx_hash := some ("0x" ++ String.mk (List.replicate 64 '0')),
         sender := some (to_checksum_address "0xabc"), error := none }, []) ∧
    ((x402_payment
        { treasury := TREASURY_ADDRESS, usdcContract := USDC_CONTRACT,
          skipVerification := false, environment := "development",
          mockVerifyMode := false, relayer := { hasKey := false, address := "" } }
        1700000000
        { id := "p1", domain := "example.com", years := 1, amount := 1299 / 100,
          status := "awaiting_payment", created_at := 0, expires_at := 1700000900 }
        []
        (some { raw := "",
                b64 := some
                  { signature := "0xsig",
                    auth :=
                      { present := true, fromAddr := "0xabc",
                        toAddr := TREASURY_ADDRESS, value := 13000000,
                        validAfter := 0, validBefore := 2000000000,
                        nonce := "0x01" } } })
        none
        { balance := 0, gasEstimate := Except.ok 0, sentTxHash := "",
          receiptStatus := none, waitErrMsg := "" }
        (Except.ok { status := "SUCCESS" })).purchase.status = "completed") := by
  have h := C10_no_key_simulates_success { hasKey := false, address := "" }
    { balance := 0, gasEstimate := Except.ok 0, sentTxHash := "",
      receiptStatus := none, waitErrMsg := "" } 1700000000
    { fromAddr := "0xabc", toAddr := TREASURY_ADDRESS, value := 13000000,
      validAfter := 0, validBefore := 2000000000, nonce := "0x01" }
    "0xsig" TREASURY_ADDRESS (float64 (1299 / 100)) rfl (by decide)
    (by rw [micro_of_12_99]; decide) (by decide) (by decide)
  refine ⟨h.1, ?_⟩
  exact (h.2
    { treasury := TREASURY_ADDRESS, usdcContract := USDC_CONTRACT,
      skipVerification := false, environment := "development",
      mockVerifyMode := false, relayer := { hasKey := false, address := "" } }
    { id := "p1", domain := "example.com", years := 1, amount := 1299 / 100,
      status := "awaiting_payment", created_at := 0, expires_at := 1700000900 }
    { raw := "",
      b64 := some
        { signature := "0xsig",
          auth :=
            { present := true, fromAddr := "0xabc", toAddr := TREASURY_ADDRESS,
              value := 13000000, validAfter := 0, validBefore := 2000000000,
              nonce := "0x01" } } }
    [] none { status := "SUCCESS" }
    rfl rfl rfl rfl (by decide) (by decide) (by decide) (by decide) (by decide)
    (by decide) rfl).1

/-! ## Where the recorded payer comes from -/

/-- `execute_transfer` either rejects, or reports the (checksummed)
authorization `from` address as the sender. -/
theorem execute_transfer_cases (cfg : RelayerCfg) (env : ChainEnv) (now : ℤ)
    (auth : Authorization) (sig r : String) (a : ℚ) :
    (execute_transfer cfg env now auth sig r a).1.verified = false ∨
      (execute_transfer cfg env now auth sig r a).1.sender =
        some (to_checksum_address auth.fromAddr) := by
  rcases hps : parse_signature sig with _ | v
  all_goals rcases hge : env.gasEstimate with e | g
  all_goals rcases hrs : env.receiptStatus with _ | st
  all_goals simp only [execute_transfer, hps, hge, hrs]
  all_goals split_ifs
  all_goals first
    | (right; rfl)
    | (left; rfl)

/-- A verified relay reports the authorization's `from` as sender. -/
theorem execute_transfer_sender (cfg : RelayerCfg) (env : ChainEnv) (now : ℤ)
    (auth : Authorization) (sig r : String) (a : ℚ)
    (h : (execute_transfer cfg env now auth sig r a).1.verified = true) :
    (execute_transfer cfg env now auth sig r a).1.sender =
      some (to_checksum_address auth.fromAddr) :=
  (execute_transfer_cases cfg env now auth sig r a).resolve_left (by simp [h])

/-- A verified scan reports some decoded log sender. -/
theorem scanLogs_sender (u t : String) (e : ℚ) (logs : List TxLog)
    (h : (scanLogs u t e logs).verified = true) :
    ∃ s, (scanLogs u t e logs).sender = some s := by
  induction logs with
  | nil => simp [scanLogs] at h
  | cons l rest ih =>
    unfold scanLogs at h ⊢
    by_cases h1 : pyLower l.address ≠ u
    · simp only [if_pos h1] at h ⊢; exact ih h
    · simp only [if_neg h1] at h ⊢
      by_cases h2 : l.topic0 ≠ TRANSFER_TOPIC
      · simp only [if_pos h2] at h ⊢; exact ih h
      · simp only [if_neg h2] at h ⊢
        by_cases h3 : pyLower (decodeTopicAddr l.topic2) ≠ pyLower t
        · simp only [if_pos h3] at h ⊢; exact ih h
        · simp only [if_neg h3] at h ⊢
          by_cases h4 : (l.dataAmount : ℚ) / (10 ^ USDC_DECIMALS : ℚ) < e
          · simp [if_pos h4] at h
          · simp only [if_neg h4] at h ⊢
            exact ⟨_, rfl⟩

/-- A verified payment verification reports some decoded on-chain sender. -/
theorem verify_payment_sender (u : String) (receipt : Option Receipt) (a : ℚ) (t : String)
    (h : (verify_payment u receipt a t).verified = true) :
    ∃ s, (verify_payment u receipt a t).sender = some s := by
  cases receipt with
  | none => simp [verify_payment] at h
  | some r =>
    simp only [verify_payment] at h ⊢
    split_ifs at h ⊢ with h1
    exact scanLogs_sender _ _ _ _ h

/-- The registration block never touches the recorded payer. -/
theorem registerAndComplete_payer (now : ℤ) (p1 : Purchase) (vp tx : String)
    (reg : Except String RegResult) (pc : List ExtCall) (pu : List String) :
    (registerAndComplete now p1 vp tx reg pc pu).purchase.payer = p1.payer := by
  unfold registerAndComplete
  rcases reg with e | r
  · rfl
  · by_cases h : r.status ≠ "SUCCESS" <;> simp [h]

/-- **C2.**  The claim as frozen ("for every configuration") is refuted by
`C2_counterexample` (`SKIP_PAYMENT_VERIFICATION` records the client-declared
payer); what the code satisfies is the amended claim: in every configuration
with payment verification enabled and not mocked, a payment request either
leaves the recorded payer unchanged or records a payer that is the settlement's
sender — the relayer's checksummed authorization `from`, or the sender decoded
from the on-chain Transfer log — never a value the client merely declared. -/
theorem C2_payer_recorded_only_from_settlement
    (cfg : Config) (now : ℤ) (purchase : Purchase) (domains : List (String × Grant))
    (h : PaymentHeader) (receipt : Option Receipt) (env : ChainEnv)
    (registrar : Except String RegResult)
    (hskip : cfg.skipVerification = false) (hmock : cfg.mockVerifyMode = false) :
    (x402_payment cfg now purchase domains (some h) receipt env
        registrar).purchase.payer = purchase.payer ∨
      ∃ s, (x402_payment cfg now purchase domains (some h) receipt env
          registrar).purchase.payer = some s ∧
        ((execute_transfer cfg.relayer env now (decode_payment_header h).auth.toAuth
            (decode_payment_header h).signature cfg.treasury
            (float64 purchase.amount)).1.sender = some s ∨
          (verify_payment cfg.usdcContract receipt purchase.amount
            cfg.treasury).sender = some s) := by
  by_cases hc : purchase.status = "completed"
  · left; simp [x402_payment, hc]
  by_cases hp : purchase.status = "pending" ∨ purchase.status = "awaiting_payment"
  case neg => left; simp [x402_payment, hc, hp]
  by_cases htx : (decode_payment_header h).tx_hash = ""
  · by_cases hau : (decode_payment_header h).auth.present ∧
      (decode_payment_header h).signature ≠ "" ∧
      (decode_payment_header h).auth.fromAddr ≠ "" ∧
      (decode_payment_header h).auth.toAddr ≠ ""
    · by_cases hv : (execute_transfer cfg.relayer env now
        (decode_payment_header h).auth.toAuth (decode_payment_header h).signature
        cfg.treasury (float64 purchase.amount)).1.verified = true
      · right
        have hsend := execute_transfer_sender cfg.relayer env now
          (decode_payment_header h).auth.toAuth (decode_payment_header h).signature
          cfg.treasury (float64 purchase.amount) hv
        refine ⟨to_checksum_address (decode_payment_header h).auth.toAuth.fromAddr,
          ?_, Or.inl hsend⟩
        simp [x402_payment, hc, hp, htx, hau, hv, hsend, registerAndComplete_payer]
      · left
        simp [x402_payment, hc, hp, htx, hau, hv]
    · left; simp [x402_payment, hc, hp, htx, hau]
  · by_cases hv : (verify_payment cfg.usdcContract receipt purchase.amount
        cfg.treasury).verified = true
    · right
      obtain ⟨s, hs⟩ := verify_payment_sender cfg.usdcContract receipt purchase.amount
        cfg.treasury hv
      refine ⟨s, ?_, Or.inr hs⟩
      simp [x402_payment, hc, hp, htx, hskip, hmock, hv, hs, registerAndComplete_payer]
    · left
      simp [x402_payment, hc, hp, htx, hskip, hmock, hv]

/-- Counterexample to C2 as frozen: with `SKIP_PAYMENT_VERIFICATION` enabled in a
development environment — a configuration the code supports — a payment request
carrying only a client-declared transaction hash and payer records that
client-declared payer (`"0xattacker"`) on the purchase and completes it, with
no verification and no relay (the only external call is the registrar). -/
theorem C2_counterexample :
    (x402_payment
        { treasury := TREASURY_ADDRESS, usdcContract := USDC_CONTRACT,
          skipVerification := true, environment := "development",
          mockVerifyMode := false, relayer := { hasKey := false, address := "" } }
        1000
        { id := "p1", domain := "example.com", years := 1, amount := 1299 / 100,
          status := "awaiting_payment", created_at := 0, expires_at := 2000 }
        []
        (some { raw := "",
                json := some { tx_hash := "0xclienttx", payer := some "0xattacker" } })
        none
        { balance := 0, gasEstimate := Except.ok 0, sentTxHash := "",
          receiptStatus := none, waitErrMsg := "" }
        (Except.ok { status := "SUCCESS" })).purchase.payer = some "0xattacker" ∧
    (x402_payment
        { treasury := TREASURY_ADDRESS, usdcContract := USDC_CONTRACT,
          skipVerification := true, environment := "development",
          mockVerifyMode := false, relayer := { hasKey := false, address := "" } }
        1000
        { id := "p1", domain := "example.com", years := 1, amount := 1299 / 100,
          status := "awaiting_payment", created_at := 0, expires_at := 2000 }
        []
        (some { raw := "",
                json := some { tx_hash := "0xclienttx", payer := some "0xattacker" } })
        none
        { balance := 0, gasEstimate := Except.ok 0, sentTxHash := "",
          receiptStatus := none, waitErrMsg := "" }
        (Except.ok { status := "SUCCESS" })).calls = [ExtCall.registrarRegister] ∧
    (x402_payment
        { treasury := TREASURY_ADDRESS, usdcContract := USDC_CONTRACT,
          skipVerification := true, environment := "development",
          mockVerifyMode := false, relayer := { hasKey := false, address := "" } }
        1000
        { id := "p1", domain := "example.com", years := 1, amount := 1299 / 100,
          status := "awaiting_payment", created_at := 0, expires_at := 2000 }
        []
        (some { raw := "",
                json := some { tx_hash := "0xclienttx", payer := some "0xattacker" } })
        none
        { balance := 0, gasEstimate := Except.ok 0, sentTxHash := "",
          receiptStatus := none, waitErrMsg := "" }
        (Except.ok { status := "SUCCESS" })).purchase.status = "completed" := by
  refine ⟨?_, ?_, ?_⟩ <;>
    simp [x402_payment, decode_payment_header, firstTruthy, registerAndComplete]

/-- Witness for C2's amended theorem at a concrete input: verification enabled
(no skip, no mock), a bare-JSON proof carrying a hash whose receipt holds a
qualifying treasury Transfer, and a client-declared payer `"0xattacker"`; the
theorem's disjunction holds here (and indeed the recorded payer is the log's
sender, not the declared one). -/
theorem C2_witness :
    (x402_payment
        { treasury := TREASURY_ADDRESS, usdcContract := USDC_CONTRACT,
          skipVerification := false, environment := "development",
          mockVerifyMode := false, relayer := { hasKey := false, address := "" } }
        1000
        { id := "p1", domain := "example.com", years := 1, amount := 1299 / 100,
          status := "awaiting_payment", created_at := 0, expires_at := 2000 }
        []
        (some { raw := "",
                json := some { tx_hash := "0xclienttx", payer := some "0xattacker" } })
        (some { status := 1,
                logs := [
                  { address := USDC_CONTRACT, topic0 := TRANSFER_TOPIC,
                    topic1 := "0x000000000000000000000000bbbbbbbbbbbbbbbbbbbbbbbbbbbbbbbbbbbbbbbb",
                    topic2 := "0x000000000000000000000000742d35cc6634c0532925a3b844bc9e7595f5be91",
                    dataAmount := 12990000 } ] })
        { balance := 0, gasEstimate := Except.ok 0, sentTxHash := "",
          receiptStatus := none, waitErrMsg := "" }
        (Except.ok { status := "SUCCESS" })).purchase.payer =
      ({ id := "p1", domain := "example.com", years := 1, amount := 1299 / 100,
         status := "awaiting_payment", created_at := 0,
         expires_at := 2000 } : Purchase).payer ∨
    ∃ s, (x402_payment
        { treasury := TREASURY_ADDRESS, usdcContract := USDC_CONTRACT,
          skipVerification := false, environment := "development",
          mockVerifyMode := false, relayer := { hasKey := false, address := "" } }
        1000
        { id := "p1", domain := "example.com", years := 1, amount := 1299 / 100,
          status := "awaiting_payment", created_at := 0, expires_at := 2000 }
        []
        (some { raw := "",
                json := some { tx_hash := "0xclienttx", payer := some "0xattacker" } })
        (some { status := 1,
                logs := [
                  { address := USDC_CONTRACT, topic0 := TRANSFER_TOPIC,
                    topic1 := "0x000000000000000000000000bbbbbbbbbbbbbbbbbbbbbbbbbbbbbbbbbbbbbbbb",
                    topic2 := "0x000000000000000000000000742d35cc6634c0532925a3b844bc9e7595f5be91",
                    dataAmount := 12990000 } ] })
        { balance := 0, gasEstimate := Except.ok 0, sentTxHash := "",
          receiptStatus := none, waitErrMsg := "" }
        (Except.ok { status := "SUCCESS" })).purchase.payer = some s ∧
      ((execute_transfer { hasKey := false, address := "" }
          { balance := 0, gasEstimate := Except.ok 0, sentTxHash := "",
            receiptStatus := none, waitErrMsg := "" } 1000
          (decode_payment_header
            { raw := "",
              json := some { tx_hash := "0xclienttx",
                             payer := some "0xattacker" } }).auth.toAuth
          (decode_payment_header
            { raw := "",
              json := some { tx_hash := "0xclienttx",
                             payer := some "0xattacker" } }).signature
          TREASURY_ADDRESS (float64 (1299 / 100))).1.sender = some s ∨
        (verify_payment USDC_CONTRACT
          (some { status := 1,
                  logs := [
                    { address := USDC_CONTRACT, topic0 := TRANSFER_TOPIC,
                      topic1 := "0x000000000000000000000000bbbbbbbbbbbbbbbbbbbbbbbbbbbbbbbbbbbbbbbb",
                      topic2 := "0x000000000000000000000000742d35cc6634c0532925a3b844bc9e7595f5be91",
                      dataAmount := 12990000 } ] })
          (1299 / 100) TREASURY_ADDRESS).sender = some s) :=
  C2_payer_recorded_only_from_settlement
    { treasury := TREASURY_ADDRESS, usdcContract := USDC_CONTRACT,
      skipVerification := false, environment := "development",
      mockVerifyMode := false, relayer := { hasKey := false, address := "" } }
    1000
    { id := "p1", domain := "example.com", years := 1, amount := 1299 / 100,
      status := "awaiting_payment", created_at := 0, expires_at := 2000 }
    []
    { raw := "", json := some { tx_hash := "0xclienttx", payer := some "0xattacker" } }
    (some { status := 1,
            logs := [
              { address := USDC_CONTRACT, topic0 := TRANSFER_TOPIC,
                topic1 := "0x000000000000000000000000bbbbbbbbbbbbbbbbbbbbbbbbbbbbbbbbbbbbbbbb",
                topic2 := "0x000000000000000000000000742d35cc6634c0532925a3b844bc9e7595f5be91",
                dataAmount := 12990000 } ] })
    { balance := 0, gasEstimate := Except.ok 0, sentTxHash := "",
      receiptStatus := none, waitErrMsg := "" }
    (Except.ok { status := "SUCCESS" })
    rfl rfl

/-- **C3** (the code violates the claim).  `x402_payment` never checks
`expires_at`: a purchase whose expiry is long past (expired at 1000, accessed
at 2000) and which holds a valid payment proof is moved to `processing` and
straight through to `completed` — the registrar is invoked and the grant
created — while the same purchase under `confirm_purchase` (the only handler
with the check) is marked `expired` and rejected. -/
theorem C3_pay_endpoint_ignores_expiry :
    ((1000 : ℤ) < 2000) ∧
    (x402_payment
        { treasury := TREASURY_ADDRESS, usdcContract := USDC_CONTRACT,
          skipVerification := false, environment := "development",
          mockVerifyMode := false, relayer := { hasKey := false, address := "" } }
        2000
        { id := "p1", domain := "example.com", years := 1, amount := 1299 / 100,
          status := "awaiting_payment", created_at := 0, expires_at := 1000 }
        []
        (some { raw := "", json := some { tx_hash := "0xclienttx" } })
        (some { status := 1,
                logs := [
                  { address := USDC_CONTRACT, topic0 := TRANSFER_TOPIC,
                    topic1 := "0x000000000000000000000000bbbbbbbbbbbbbbbbbbbbbbbbbbbbbbbbbbbbbbbb",
                    topic2 := "0x000000000000000000000000742d35cc6634c0532925a3b844bc9e7595f5be91",
                    dataAmount := 12990000 } ] })
        { balance := 0, gasEstimate := Except.ok 0, sentTxHash := "",
          receiptStatus := none, waitErrMsg := "" }
        (Except.ok { status := "SUCCESS" })).statusUpdates =
      ["processing", "completed"] ∧
    (x402_payment
        { treasury := TREASURY_ADDRESS, usdcContract := USDC_CONTRACT,
          skipVerification := false, environment := "development",
          mockVerifyMode := false, relayer := { hasKey := false, address := "" } }
        2000
        { id := "p1", domain := "example.com", years := 1, amount := 1299 / 100,
          status := "awaiting_payment", created_at := 0, expires_at := 1000 }
        []
        (some { raw := "", json := some { tx_hash := "0xclienttx" } })
        (some { status := 1,
                logs := [
                  { address := USDC_CONTRACT, topic0 := TRANSFER_TOPIC,
                    topic1 := "0x000000000000000000000000bbbbbbbbbbbbbbbbbbbbbbbbbbbbbbbbbbbbbbbb",
                    topic2 := "0x000000000000000000000000742d35cc6634c0532925a3b844bc9e7595f5be91",
                    dataAmount := 12990000 } ] })
        { balance := 0, gasEstimate := Except.ok 0, sentTxHash := "",
          receiptStatus := none, waitErrMsg := "" }
        (Except.ok { status := "SUCCESS" })).purchase.status = "completed" ∧
    (confirm_purchase
        { treasury := TREASURY_ADDRESS, usdcContract := USDC_CONTRACT,
          skipVerification := false, environment := "development",
          mockVerifyMode := false, relayer := { hasKey := false, address := "" } }
        2000
        { id := "p1", domain := "example.com", years := 1, amount := 1299 / 100,
          status := "awaiting_payment", created_at := 0, expires_at := 1000 }
        [] "0xclienttx"
        (some { status := 1,
                logs := [
                  { address := USDC_CONTRACT, topic0 := TRANSFER_TOPIC,
                    topic1 := "0x000000000000000000000000bbbbbbbbbbbbbbbbbbbbbbbbbbbbbbbbbbbbbbbb",
                    topic2 := "0x000000000000000000000000742d35cc6634c0532925a3b844bc9e7595f5be91",
                    dataAmount := 12990000 } ] })
        (Except.ok { status := "SUCCESS" })).purchase.status = "expired" ∧
    (confirm_purchase
        { treasury := TREASURY_ADDRESS, usdcContract := USDC_CONTRACT,
          skipVerification := false, environment := "development",
          mockVerifyMode := false, relayer := { hasKey := false, address := "" } }
        2000
        { id := "p1", domain := "example.com", years := 1, amount := 1299 / 100,
          status := "awaiting_payment", created_at := 0, expires_at := 1000 }
        [] "0xclienttx"
        (some { status := 1,
                logs := [
                  { address := USDC_CONTRACT, topic0 := TRANSFER_TOPIC,
                    topic1 := "0x000000000000000000000000bbbbbbbbbbbbbbbbbbbbbbbbbbbbbbbbbbbbbbbb",
                    topic2 := "0x000000000000000000000000742d35cc6634c0532925a3b844bc9e7595f5be91",
                    dataAmount := 12990000 } ] })
        (Except.ok { status := "SUCCESS" })).resp =
      ConfirmResp.httpError 400 "Purchase expired" := by
  have hr : pyLower (decodeTopicAddr
      "0x000000000000000000000000742d35cc6634c0532925a3b844bc9e7595f5be91") =
      pyLower TREASURY_ADDRESS := by decide
  have hq : ¬(((12990000 : ℕ) : ℚ) / (10 ^ USDC_DECIMALS : ℚ) < 1299 / 100) := by
    norm_num [USDC_DECIMALS]
  push_cast at hq
  refine ⟨by decide, ?_, ?_, ?_, ?_⟩ <;>
    simp [x402_payment, confirm_purchase, decode_payment_header, firstTruthy,
      verify_payment, scanLogs, registerAndComplete, hr, hq]

/-- The registration block's outcome when the registrar answers non-`SUCCESS`. -/
theorem registerAndComplete_regfail (now : ℤ) (p1 : Purchase) (vp tx : String)
    (reg : RegResult) (pc : List ExtCall) (pu : List String)
    (h : reg.status ≠ "SUCCESS") :
    registerAndComplete now p1 vp tx (Except.ok reg) pc pu =
      { purchase := { p1 with status := "registration_failed" }, grantCreated := none,
        calls := pc ++ [ExtCall.registrarRegister],
        statusUpdates := pu ++ ["registration_failed"],
        resp := PayResp.jsonError 500
          "Domain registration failed. Please contact support." } := by
  simp [registerAndComplete, h]

/-- **C5.**  Whenever a payment request reaches the registrar (settlement was
established) and the registrar answers a non-`SUCCESS` status, the purchase
ends in `registration_failed`, no Domain Grant is created, and the payer and
transaction hash recorded before the registrar call are still on the
purchase record. -/
theorem C5_registrar_failure_keeps_settlement
    (cfg : Config) (now : ℤ) (purchase : Purchase) (domains : List (String × Grant))
    (header : Option PaymentHeader) (receipt : Option Receipt) (env : ChainEnv)
    (reg : RegResult) (hreg : reg.status ≠ "SUCCESS")
    (hcall : ExtCall.registrarRegister ∈ (x402_payment cfg now purchase domains header
      receipt env (Except.ok reg)).calls) :
    (x402_payment cfg now purchase domains header receipt env
        (Except.ok reg)).purchase.status = "registration_failed" ∧
    (x402_payment cfg now purchase domains header receipt env
        (Except.ok reg)).grantCreated = none ∧
    (∃ p, (x402_payment cfg now purchase domains header receipt env
        (Except.ok reg)).purchase.payer = some p) ∧
    (∃ t, (x402_payment cfg now purchase domains header receipt env
        (Except.ok reg)).purchase.tx_hash = some t) := by
  by_cases hc : purchase.status = "completed"
  · simp [x402_payment, hc] at hcall
  by_cases hp : purchase.status = "pending" ∨ purchase.status = "awaiting_payment"
  case neg => simp [x402_payment, hc, hp] at hcall
  cases header with
  | none => simp [x402_payment, hc, hp] at hcall
  | some h =>
    by_cases htx : (decode_payment_header h).tx_hash = ""
    · by_cases hau : (decode_payment_header h).auth.present ∧
        (decode_payment_header h).signature ≠ "" ∧
        (decode_payment_header h).auth.fromAddr ≠ "" ∧
        (decode_payment_header h).auth.toAddr ≠ ""
      · by_cases hv : (execute_transfer cfg.relayer env now
          (decode_payment_header h).auth.toAuth (decode_payment_header h).signature
          cfg.treasury (float64 purchase.amount)).1.verified = true
        · refine ⟨?_, ?_, ?_, ?_⟩ <;>
            simp [x402_payment, hc, hp, htx, hau, hv, registerAndComplete_regfail _ _ _ _
              _ _ _ hreg]
        · simp [x402_payment, hc, hp, htx, hau, hv] at hcall
      · simp [x402_payment, hc, hp, htx, hau] at hcall
    · by_cases hskip : cfg.skipVerification
      · by_cases henv : cfg.environment = "production"
        · simp [x402_payment, hc, hp, htx, hskip, henv] at hcall
        · refine ⟨?_, ?_, ?_, ?_⟩ <;>
            simp [x402_payment, hc, hp, htx, hskip, henv, registerAndComplete_regfail
              _ _ _ _ _ _ _ hreg]
      · by_cases hmock : cfg.mockVerifyMode
        · by_cases hv : (mock_verify (decode_payment_header h).tx_hash purchase.amount
            cfg.treasury).verified = true
          · refine ⟨?_, ?_, ?_, ?_⟩ <;>
              simp [x402_payment, hc, hp, htx, hskip, hmock, hv,
                registerAndComplete_regfail _ _ _ _ _ _ _ hreg]
          · simp [x402_payment, hc, hp, htx, hskip, hmock, hv] at hcall
        · by_cases hv : (verify_payment cfg.usdcContract receipt purchase.amount
            cfg.treasury).verified = true
          · refine ⟨?_, ?_, ?_, ?_⟩ <;>
              simp [x402_payment, hc, hp, htx, hskip, hmock, hv,
                registerAndComplete_regfail _ _ _ _ _ _ _ hreg]
          · simp [x402_payment, hc, hp, htx, hskip, hmock, hv] at hcall

/-- Witness for C5: a verified on-chain payment whose registrar call answers
`ERROR`; the purchase ends `registration_failed`, keeps payer and hash, and
no grant is created. -/
theorem C5_witness :
    (x402_payment
        { treasury := TREASURY_ADDRESS, usdcContract := USDC_CONTRACT,
          skipVerification := false, environment := "development",
          mockVerifyMode := false, relayer := { hasKey := false, address := "" } }
        1000
        { id := "p1", domain := "example.com", years := 1, amount := 1299 / 100,
          status := "awaiting_payment", created_at := 0, expires_at := 2000 }
        []
        (some { raw := "", json := some { tx_hash := "0xclienttx" } })
        (some { status := 1,
                logs := [
                  { address := USDC_CONTRACT, topic0 := TRANSFER_TOPIC,
                    topic1 := "0x000000000000000000000000bbbbbbbbbbbbbbbbbbbbbbbbbbbbbbbbbbbbbbbb",
                    topic2 := "0x000000000000000000000000742d35cc6634c0532925a3b844bc9e7595f5be91",
                    dataAmount := 12990000 } ] })
        { balance := 0, gasEstimate := Except.ok 0, sentTxHash := "",
          receiptStatus := none, waitErrMsg := "" }
        (Except.ok { status := "ERROR" })).purchase.status = "registration_failed" ∧
    (x402_payment
        { treasury := TREASURY_ADDRESS, usdcContract := USDC_CONTRACT,
          skipVerification := false, environment := "development",
          mockVerifyMode := false, relayer := { hasKey := false, address := "" } }
        1000
        { id := "p1", domain := "example.com", years := 1, amount := 1299 / 100,
          status := "awaiting_payment", created_at := 0, expires_at := 2000 }
        []
        (some { raw := "", json := some { tx_hash := "0xclienttx" } })
        (some { status := 1,
                logs := [
                  { address := USDC_CONTRACT, topic0 := TRANSFER_TOPIC,
                    topic1 := "0x000000000000000000000000bbbbbbbbbbbbbbbbbbbbbbbbbbbbbbbbbbbbbbbb",
                    topic2 := "0x000000000000000000000000742d35cc6634c0532925a3b844bc9e7595f5be91",
                    dataAmount := 12990000 } ] })
        { balance := 0, gasEstimate := Except.ok 0, sentTxHash := "",
          receiptStatus := none, waitErrMsg := "" }
        (Except.ok { status := "ERROR" })).grantCreated = none ∧
    (∃ p, (x402_payment
        { treasury := TREASURY_ADDRESS, usdcContract := USDC_CONTRACT,
          skipVerification := false, environment := "development",
          mockVerifyMode := false, relayer := { hasKey := false, address := "" } }
        1000
        { id := "p1", domain := "example.com", years := 1, amount := 1299 / 100,
          status := "awaiting_payment", created_at := 0, expires_at := 2000 }
        []
        (some { raw := "", json := some { tx_hash := "0xclienttx" } })
        (some { status := 1,
                logs := [
                  { address := USDC_CONTRACT, topic0 := TRANSFER_TOPIC,
                    topic1 := "0x000000000000000000000000bbbbbbbbbbbbbbbbbbbbbbbbbbbbbbbbbbbbbbbb",
                    topic2 := "0x000000000000000000000000742d35cc6634c0532925a3b844bc9e7595f5be91",
                    dataAmount := 12990000 } ] })
        { balance := 0, gasEstimate := Except.ok 0, sentTxHash := "",
          receiptStatus := none, waitErrMsg := "" }
        (Except.ok { status := "ERROR" })).purchase.payer = some p) ∧
    (∃ t, (x402_payment
        { treasury := TREASURY_ADDRESS, usdcContract := USDC_CONTRACT,
          skipVerification := false, environment := "development",
          mockVerifyMode := false, relayer := { hasKey := false, address := "" } }
        1000
        { id := "p1", domain := "example.com", years := 1, amount := 1299 / 100,
          status := "awaiting_payment", created_at := 0, expires_at := 2000 }
        []
        (some { raw := "", json := some { tx_hash := "0xclienttx" } })
        (some { status := 1,
                logs := [
                  { address := USDC_CONTRACT, topic0 := TRANSFER_TOPIC,
                    topic1 := "0x000000000000000000000000bbbbbbbbbbbbbbbbbbbbbbbbbbbbbbbbbbbbbbbb",
                    topic2 := "0x000000000000000000000000742d35cc6634c0532925a3b844bc9e7595f5be91",
                    dataAmount := 12990000 } ] })
        { balance := 0, gasEstimate := Except.ok 0, sentTxHash := "",
          receiptStatus := none, waitErrMsg := "" }
        (Except.ok { status := "ERROR" })).purchase.tx_hash = some t) := by
  apply C5_registrar_failure_keeps_settlement
  · decide
  · have hr : pyLower (decodeTopicAddr
        "0x000000000000000000000000742d35cc6634c0532925a3b844bc9e7595f5be91") =
        pyLower TREASURY_ADDRESS := by decide
    have hq : ¬(((12990000 : ℕ) : ℚ) / (10 ^ USDC_DECIMALS : ℚ) < 1299 / 100) := by
      norm_num [USDC_DECIMALS]
    push_cast at hq
    simp [x402_payment, decode_payment_header, firstTruthy, verify_payment, scanLogs,
      registerAndComplete, hr, hq]

/-- **C7.**  The claim as frozen is refuted by `C7_counterexample`: the payment
endpoint rejects a `payment_failed` purchase outright.  What the code satisfies
is the amended claim: a purchase in `payment_failed` is rejected by the payment
endpoint with HTTP 400 and no processing whatsoever (no status change, no
external call); a retry is possible only through the confirmation endpoint,
which — for an unexpired `payment_failed` purchase with verification enabled —
does verify the newly supplied proof. -/
theorem C7_payment_failed_rejected_by_pay_retryable_by_confirm :
    (∀ (cfg : Config) (now : ℤ) (p : Purchase) (domains : List (String × Grant))
        (hdr : PaymentHeader) (receipt : Option Receipt) (env : ChainEnv)
        (registrar : Except String RegResult),
      p.status = "payment_failed" →
      x402_payment cfg now p domains (some hdr) receipt env registrar =
        { purchase := p, grantCreated := none, calls := [], statusUpdates := [],
          resp := PayResp.httpError 400 ("Purchase status is " ++ p.status) }) ∧
    (∀ (cfg : Config) (now : ℤ) (p : Purchase) (domains : List (String × Grant))
        (tx : String) (receipt : Option Receipt) (registrar : Except String RegResult),
      p.status = "payment_failed" → ¬p.expires_at < now →
      cfg.skipVerification = false →
      ExtCall.verifyPayment ∈
        (confirm_purchase cfg now p domains tx receipt registrar).calls) := by
  constructor
  · intro cfg now p domains hdr receipt env registrar hst
    simp [x402_payment, hst]
  · intro cfg now p domains tx receipt registrar hst hexp hskip
    rcases registrar with e | r <;>
      simp [confirm_purchase, hst, hexp, hskip] <;>
      split_ifs <;> simp

/-- Counterexample to C7 as frozen: a `payment_failed` purchase far from its
expiry receives a fresh, fully valid payment submission, and the payment
endpoint answers HTTP 400 `"Purchase status is payment_failed"` without
touching the purchase or calling any external component — the submission is
not accepted for processing. -/
theorem C7_counterexample :
    ((1000 : ℤ) < 2000) ∧
    x402_payment
        { treasury := TREASURY_ADDRESS, usdcContract := USDC_CONTRACT,
          skipVerification := false, environment := "development",
          mockVerifyMode := false, relayer := { hasKey := false, address := "" } }
        1000
        { id := "p1", domain := "example.com", years := 1, amount := 1299 / 100,
          status := "payment_failed", created_at := 0, expires_at := 2000 }
        []
        (some { raw := "", json := some { tx_hash := "0xclienttx" } })
        (some { status := 1,
                logs := [
                  { address := USDC_CONTRACT, topic0 := TRANSFER_TOPIC,
                    topic1 := "0x000000000000000000000000bbbbbbbbbbbbbbbbbbbbbbbbbbbbbbbbbbbbbbbb",
                    topic2 := "0x000000000000000000000000742d35cc6634c0532925a3b844bc9e7595f5be91",
                    dataAmount := 12990000 } ] })
        { balance := 0, gasEstimate := Except.ok 0, sentTxHash := "",
          receiptStatus := none, waitErrMsg := "" }
        (Except.ok { status := "SUCCESS" }) =
      { purchase :=
          { id := "p1", domain := "example.com", years := 1,
            amount := 1299 / 100, status := "payment_failed", created_at := 0,
            expires_at := 2000 },
        grantCreated := none, calls := [], statusUpdates := [],
        resp := PayResp.httpError 400 "Purchase status is payment_failed" } := by
  refine ⟨by decide, ?_⟩
  simp [x402_payment]

/-- Witness for C7's amended theorem: a concrete `payment_failed` purchase is
rejected by the payment endpoint, and its retry through the confirmation
endpoint does reach payment verification. -/
theorem C7_witness :
    x402_payment
        { treasury := TREASURY_ADDRESS, usdcContract := USDC_CONTRACT,
          skipVerification := false, environment := "development",
          mockVerifyMode := false, relayer := { hasKey := false, address := "" } }
        1000
        { id := "p2", domain := "example.org", years := 1, amount := 499 / 100,
          status := "payment_failed", created_at := 0, expires_at := 2000 }
        []
        (some { raw := "" })
        none
        { balance := 0, gasEstimate := Except.ok 0, sentTxHash := "",
          receiptStatus := none, waitErrMsg := "" }
        (Except.ok { status := "SUCCESS" }) =
      { purchase :=
          { id := "p2", domain := "example.org", years := 1,
            amount := 499 / 100, status := "payment_failed", created_at := 0,
            expires_at := 2000 },
        grantCreated := none, calls := [], statusUpdates := [],
        resp := PayResp.httpError 400 ("Purchase status is " ++ "payment_failed") } ∧
    ExtCall.verifyPayment ∈
      (confirm_purchase
        { treasury := TREASURY_ADDRESS, usdcContract := USDC_CONTRACT,
          skipVerification := false, environment := "development",
          mockVerifyMode := false, relayer := { hasKey := false, address := "" } }
        1000
        { id := "p2", domain := "example.org", years := 1, amount := 499 / 100,
          status := "payment_failed", created_at := 0, expires_at := 2000 }
        [] "0xnewproof" none (Except.ok { status := "SUCCESS" })).calls :=
  ⟨C7_payment_failed_rejected_by_pay_retryable_by_confirm.1
      { treasury := TREASURY_ADDRESS, usdcContract := USDC_CONTRACT,
        skipVerification := false, environment := "development",
        mockVerifyMode := false, relayer := { hasKey := false, address := "" } }
      1000
      { id := "p2", domain := "example.org", years := 1, amount := 499 / 100,
        status := "payment_failed", created_at := 0, expires_at := 2000 }
      [] { raw := "" } none
      { balance := 0, gasEstimate := Except.ok 0, sentTxHash := "",
        receiptStatus := none, waitErrMsg := "" }
      (Except.ok { status := "SUCCESS" }) rfl,
    C7_payment_failed_rejected_by_pay_retryable_by_confirm.2
      { treasury := TREASURY_ADDRESS, usdcContract := USDC_CONTRACT,
        skipVerification := false, environment := "development",
        mockVerifyMode := false, relayer := { hasKey := false, address := "" } }
      1000
      { id := "p2", domain := "example.org", years := 1, amount := 499 / 100,
        status := "payment_failed", created_at := 0, expires_at := 2000 }
      [] "0xnewproof" none (Except.ok { status := "SUCCESS" })
      rfl (by decide) rfl⟩

/-- **C8.**  A `completed` purchase (with its grant on record) short-circuits
both endpoints: the payment endpoint returns the existing grant and the
confirmation endpoint answers `already_completed` with it; in both cases the
purchase row is untouched, nothing is verified, relayed or registered, and no
grant is created. -/
theorem C8_completed_is_terminal_and_idempotent
    (cfg : Config) (now : ℤ) (purchase : Purchase) (domains : List (String × Grant))
    (header : Option PaymentHeader) (receipt : Option Receipt) (env : ChainEnv)
    (registrar : Except String RegResult) (req_tx : String) (g : Grant)
    (hst : purchase.status = "completed")
    (hg : lookupGrant domains purchase.domain = some g) :
    x402_payment cfg now purchase domains header receipt env registrar =
      { purchase := purchase, grantCreated := none, calls := [], statusUpdates := [],
        resp := PayResp.success (some g) none } ∧
    confirm_purchase cfg now purchase domains req_tx receipt registrar =
      { purchase := purchase, grantCreated := none, calls := [], statusUpdates := [],
        resp := ConfirmResp.alreadyCompleted g } := by
  constructor
  · simp [x402_payment, hst, hg]
  · simp [confirm_purchase, hst, hg]

/-- Witness for C8: a concrete completed purchase whose grant is on file; both
endpoints return it untouched. -/
theorem C8_witness :
    x402_payment
        { treasury := TREASURY_ADDRESS, usdcContract := USDC_CONTRACT,
          skipVerification := false, environment := "development",
          mockVerifyMode := false, relayer := { hasKey := false, address := "" } }
        5000
        { id := "p3", domain := "example.net", years := 1, amount := 1299 / 100,
          status := "completed", created_at := 0, expires_at := 2000 }
        [("example.net",
          { domain_name := "example.net", expires_at := "2027-01-28",
            nameservers := ["ns1.porkbun.com", "ns2.porkbun.com"],
            registered_at := 900, owner_wallet := "0xowner" })]
        (some { raw := "", json := some { tx_hash := "0xanother" } })
        none
        { balance := 0, gasEstimate := Except.ok 0, sentTxHash := "",
          receiptStatus := none, waitErrMsg := "" }
        (Except.ok { status := "SUCCESS" }) =
      { purchase :=
          { id := "p3", domain := "example.net", years := 1,
            amount := 1299 / 100, status := "completed", created_at := 0,
            expires_at := 2000 },
        grantCreated := none, calls := [], statusUpdates := [],
        resp := PayResp.success (some
          { domain_name := "example.net", expires_at := "2027-01-28",
            nameservers := ["ns1.porkbun.com", "ns2.porkbun.com"],
            registered_at := 900, owner_wallet := "0xowner" }) none } ∧
    confirm_purchase
        { treasury := TREASURY_ADDRESS, usdcContract := USDC_CONTRACT,
          skipVerification := false, environment := "development",
          mockVerifyMode := false, relayer := { hasKey := false, address := "" } }
        5000
        { id := "p3", domain := "example.net", years := 1, amount := 1299 / 100,
          status := "completed", created_at := 0, expires_at := 2000 }
        [("example.net",
          { domain_name := "example.net", expires_at := "2027-01-28",
            nameservers := ["ns1.porkbun.com", "ns2.porkbun.com"],
            registered_at := 900, owner_wallet := "0xowner" })]
        "0xanother" none (Except.ok { status := "SUCCESS" }) =
      { purchase :=
          { id := "p3", domain := "example.net", years := 1,
            amount := 1299 / 100, status := "completed", created_at := 0,
            expires_at := 2000 },
        grantCreated := none, calls := [], statusUpdates := [],
        resp := ConfirmResp.alreadyCompleted
          { domain_name := "example.net", expires_at := "2027-01-28",
            nameservers := ["ns1.porkbun.com", "ns2.porkbun.com"],
            registered_at := 900, owner_wallet := "0xowner" } } :=
  C8_completed_is_terminal_and_idempotent
    { treasury := TREASURY_ADDRESS, usdcContract := USDC_CONTRACT,
      skipVerification := false, environment := "development",
      mockVerifyMode := false, relayer := { hasKey := false, address := "" } }
    5000
    { id := "p3", domain := "example.net", years := 1, amount := 1299 / 100,
      status := "completed", created_at := 0, expires_at := 2000 }
    [("example.net",
      { domain_name := "example.net", expires_at := "2027-01-28",
        nameservers := ["ns1.porkbun.com", "ns2.porkbun.com"],
        registered_at := 900, owner_wallet := "0xowner" })]
    (some { raw := "", json := some { tx_hash := "0xanother" } })
    none
    { balance := 0, gasEstimate := Except.ok 0, sentTxHash := "",
      receiptStatus := none, waitErrMsg := "" }
    (Except.ok { status := "SUCCESS" }) "0xanother"
    { domain_name := "example.net", expires_at := "2027-01-28",
      nameservers := ["ns1.porkbun.com", "ns2.porkbun.com"],
      registered_at := 900, owner_wallet := "0xowner" }
    rfl (by decide)

/-- **C9.**  The decoder tries the base64-JSON envelope first, the bare JSON
object second, and the legacy `x402 key="value"` list last, each failure
falling through to the next; and when no format yields a transaction hash or a
complete authorization, the purchase is put back to `awaiting_payment` with an
HTTP 400 "Missing transaction hash or authorization" error — never accepted
(no call, no grant). -/
theorem C9_decode_priority_and_rejection :
    (∀ (p : B64Payload) (j : Option JsonPayload) (raw : String)
        (lp : List (String × String)),
      decode_payment_header { raw := raw, b64 := some p, json := j, legacyParams := lp } =
        { tx_hash := if p.transactionIsDict then
            firstTruthy "" [p.payloadTransactionHash, p.payloadTxHash, p.transactionHash]
          else p.topTransactionHash,
          payer := firstTruthy "unknown" [p.auth.fromAddr, p.payloadPayer, p.payloadAddress],
          auth := p.auth, signature := p.signature }) ∧
    (∀ (j : JsonPayload) (raw : String) (lp : List (String × String)),
      decode_payment_header { raw := raw, b64 := none, json := some j, legacyParams := lp } =
        { tx_hash := firstTruthy "" [j.tx_hash, j.transactionHash],
          payer := j.payer.getD "unknown", auth := { present := false },
          signature := "" }) ∧
    (∀ (raw : String) (lp : List (String × String)),
      pyStartsWith raw "x402 " = true →
      decode_payment_header { raw := raw, b64 := none, json := none, legacyParams := lp } =
        { tx_hash := (lookupParam lp "tx_hash").getD "",
          payer := (lookupParam lp "payer").getD "unknown",
          auth := { present := false }, signature := "" }) ∧
    (∀ (raw : String) (lp : List (String × String)),
      pyStartsWith raw "x402 " = false →
      decode_payment_header { raw := raw, b64 := none, json := none, legacyParams := lp } =
        { tx_hash := "", payer := "unknown", auth := { present := false },
          signature := "" }) ∧
    (∀ (cfg : Config) (now : ℤ) (p : Purchase) (domains : List (String × Grant))
        (hdr : PaymentHeader) (receipt : Option Receipt) (env : ChainEnv)
        (registrar : Except String RegResult),
      (p.status = "pending" ∨ p.status = "awaiting_payment") →
      (decode_payment_header hdr).tx_hash = "" →
      ¬((decode_payment_header hdr).auth.present ∧
        (decode_payment_header hdr).signature ≠ "" ∧
        (decode_payment_header hdr).auth.fromAddr ≠ "" ∧
        (decode_payment_header hdr).auth.toAddr ≠ "") →
      x402_payment cfg now p domains (some hdr) receipt env registrar =
        { purchase := { p with status := "awaiting_payment" }, grantCreated := none,
          calls := [], statusUpdates := ["processing", "awaiting_payment"],
          resp := PayResp.jsonError 400
            "Missing transaction hash or authorization in payment header. Please retry." }) := by
  refine ⟨fun p j raw lp => rfl, fun j raw lp => rfl, ?_, ?_, ?_⟩
  · intro raw lp hx
    simp [decode_payment_header, hx]
  · intro raw lp hx
    simp [decode_payment_header, hx]
  · intro cfg now p domains hdr receipt env registrar hp htx hau
    rcases hp with hp | hp <;> simp [x402_payment, hp, htx, hau]

/-- Witness for C9: an unrecognizable header (not base64-JSON, not JSON, no
`x402 ` prefix) decodes to nothing and the payment endpoint puts the purchase
back to `awaiting_payment` with the descriptive 400 error. -/
theorem C9_witness :
    decode_payment_header
        { raw := "garbage", b64 := none, json := none, legacyParams := [] } =
      { tx_hash := "", payer := "unknown", auth := { present := false },
        signature := "" } ∧
    x402_payment
        { treasury := TREASURY_ADDRESS, usdcContract := USDC_CONTRACT,
          skipVerification := false, environment := "development",
          mockVerifyMode := false, relayer := { hasKey := false, address := "" } }
        1000
        { id := "p4", domain := "example.com", years := 1, amount := 1299 / 100,
          status := "awaiting_payment", created_at := 0, expires_at := 2000 }
        []
        (some { raw := "garbage" })
        none
        { balance := 0, gasEstimate := Except.ok 0, sentTxHash := "",
          receiptStatus := none, waitErrMsg := "" }
        (Except.ok { status := "SUCCESS" }) =
      { purchase :=
          { id := "p4", domain := "example.com", years := 1,
            amount := 1299 / 100, status := "awaiting_payment", created_at := 0,
            expires_at := 2000 },
        grantCreated := none, calls := [],
        statusUpdates := ["processing", "awaiting_payment"],
        resp := PayResp.jsonError 400
          "Missing transaction hash or authorization in payment header. Please retry." } :=
  ⟨C9_decode_priority_and_rejection.2.2.2.1 "garbage" [] (by decide),
    C9_decode_priority_and_rejection.2.2.2.2
      { treasury := TREASURY_ADDRESS, usdcContract := USDC_CONTRACT,
        skipVerification := false, environment := "development",
        mockVerifyMode := false, relayer := { hasKey := false, address := "" } }
      1000
      { id := "p4", domain := "example.com", years := 1, amount := 1299 / 100,
        status := "awaiting_payment", created_at := 0, expires_at := 2000 }
      [] { raw := "garbage" } none
      { balance := 0, gasEstimate := Except.ok 0, sentTxHash := "",
        receiptStatus := none, waitErrMsg := "" }
      (Except.ok { status := "SUCCESS" })
      (Or.inr rfl) (by decide) (by decide)⟩

end Clawd
